import Mathlib

/-!
# ParkSafari: the recommendation and ranking queries of `server/queries.js`

`queries.js` exports arrow functions that build one SQL statement each from
their parameters.  This development has two layers:

* `ParkSafari.queries`: the builders themselves, as functions from JavaScript
  values to the statement text, with the text of the source;
* `ParkSafari.Eval`: the relational meaning of the statements the builders
  produce, one definition per common table expression, over lists of rows.

The distance expression of the statements is read over the real numbers in
`ParkSafari.Geo`.
-/

namespace ParkSafari

/-! ## JavaScript values reaching the builders -/

/-- The JavaScript values a builder parameter can hold: a number or a string.
The numbers are the integers, exact as in JavaScript up to `2^53` in
magnitude, the range of every value used below. -/
inductive JsValue where
  | number (n : Int)
  | string (s : String)
  deriving DecidableEq, Repr

namespace JsValue

/-- String conversion of a value inside a template literal. -/
def toStr : JsValue → String
  | number n => toString n
  | string s => s

/-- The JavaScript operator `+`: addition of two numbers, concatenation of
the string conversions as soon as one operand is a string. -/
def plus : JsValue → JsValue → JsValue
  | number a, number b => number (a + b)
  | a, b => string (a.toStr ++ b.toStr)

/-- The JavaScript operator `===` on these values: the same kind of value
and the same content. -/
def strictEq (a b : JsValue) : Bool :=
  decide (a = b)

end JsValue

/-- The conditions a query entry point can fail with, after the error
taxonomy of the specification. -/
inductive QueryError where
  | InvalidArgument
  | NotFound
  | Internal
  deriving DecidableEq, Repr

/-- How a call of a JavaScript function completes: it returns a value or it
throws. -/
inductive Completion (α : Type) where
  | normal (value : α)
  | throw (error : QueryError)
  deriving DecidableEq, Repr

namespace queries

/-- Simple query 1: all national parks sorted by a given criterion
(`queries.js`, line 9). -/
def allParks (sortBy : JsValue) : String :=
  "SELECT p.park_code, p.park_name, p.state, p.acres, p.latitude, p.longitude, COUNT(s.species_id) AS species_count
FROM Park p
         JOIN Species s ON p.park_name = s.park_name
GROUP BY p.park_name
ORDER BY " ++
  JsValue.toStr sortBy ++
  " " ++
  (if JsValue.strictEq sortBy (JsValue.string "park_name") then "ASC" else "DESC") ++
  ";"

/-- Simple query 5: the parks found by name, state or species observed,
sorted by a given criterion (`queries.js`, line 79). -/
def searches (searchBy sortBy searchTerm : JsValue) : String :=
  "SELECT ANY_VALUE(p.park_code) AS park_code, p.park_name, ANY_VALUE(p.state) AS state, 
ANY_VALUE(p.acres) AS acres, ANY_VALUE(p.longitude) AS longitude, 
ANY_VALUE(p.latitude) AS latitude, COUNT(s.species_id) AS species_count
FROM Park p JOIN Species s ON p.park_name = s.park_name
WHERE " ++
  (if JsValue.strictEq searchBy (JsValue.string "park_name") then "p.park_name"
    else if JsValue.strictEq searchBy (JsValue.string "state") then "p.state"
    else "s.common_names") ++
  " LIKE '%" ++
  JsValue.toStr searchTerm ++
  "%'
GROUP BY p.park_name
ORDER BY " ++
  JsValue.toStr sortBy ++
  " " ++
  (if JsValue.strictEq sortBy (JsValue.string "park_name") then "ASC" else "DESC") ++
  ";"

/-- Complex query 1: the best-valued listings near each park where a species is found (`queries.js`, line 118). -/
def recommendedAirbnbForSpecies (species num : JsValue) : String :=
  "WITH parks AS (SELECT DISTINCT S.park_name, P.longitude, P.latitude
               FROM Park P
                        JOIN Species S ON P.park_name = S.park_name
               WHERE common_names LIKE '%" ++
  JsValue.toStr species ++
  "%'),
     park_airbnb AS (SELECT A.name,
                            3958.8 *
                            (2 * ASIN(SQRT(POWER(SIN((RADIANS(S.latitude) - RADIANS(A.latitude)) / 2), 2) +
                                           COS(RADIANS(A.latitude)) * COS(RADIANS(S.latitude)) *
                                           POWER(SIN((RADIANS((S.longitude)) -
                                                      RADIANS(A.longitude)) / 2),
                                                 2)))) AS distance_to_park,
                            S.park_name,
                            A.price,
                            A.number_of_reviews,
                            A.city,
                            A.state,
                            A.host_name,
                            A.room_type,
                            A.minimum_nights,
                            A.availability_365
                     FROM parks S,
                          (SELECT * FROM Airbnb WHERE number_of_reviews > 150) A
                     GROUP BY S.park_name, S.longitude, S.latitude, A.name, A.price, A.longitude, A.latitude,
                              A.number_of_reviews, A.state, A.host_name, A.room_type, A.minimum_nights,
                              A.availability_365, A.city),
     ranked_park_airbinb AS (SELECT *,
                                    ROW_NUMBER() OVER (PARTITION BY park_name
                                        ORDER BY distance_to_park, price, number_of_reviews DESC) AS ranking
                             FROM park_airbnb)
SELECT *
FROM ranked_park_airbinb
WHERE ranking < " ++
  JsValue.toStr (JsValue.plus num (JsValue.number 1)) ++
  "
GROUP BY name, distance_to_park, park_name, price, number_of_reviews, city, state, host_name, room_type, minimum_nights,
         availability_365
ORDER BY distance_to_park;"

/-- Complex query 1, over the view `materialized_view_ranked_airbnb_near_park` (`queries.js`, line 163). -/
def recommendedAirbnbForSpeciesOptimized (species num : JsValue) : String :=
  "SELECT P.*
FROM (SELECT name,
             distance_to_park,
             park_name,
             price,
             number_of_reviews,
             city,
             state,
             host_name,
             room_type,
             minimum_nights,
             availability_365,
             ranking
      FROM materialized_view_ranked_airbnb_near_park
      WHERE ranking < " ++
  JsValue.toStr (JsValue.plus num (JsValue.number 1)) ++
  ") P
WHERE park_name IN (SELECT DISTINCT park_name
                    FROM Species
                    WHERE common_names LIKE '%" ++
  JsValue.toStr species ++
  "%')
ORDER BY distance_to_park, park_name, ranking;"

/-- Complex query 1 restricted to a state (`queries.js`, line 196). -/
def recommendedAirbnbInStateForSpecies (species num state : JsValue) : String :=
  "WITH parks AS (SELECT DISTINCT S.park_name, P.longitude, P.latitude
               FROM Park P
                        JOIN Species S ON P.park_name = S.park_name
               WHERE common_names LIKE '%" ++
  JsValue.toStr species ++
  "%' AND state LIKE '%" ++
  JsValue.toStr state ++
  "%'),
     park_airbnb AS (SELECT A.name,
                            3958.8 *
                            (2 * ASIN(SQRT(POWER(SIN((RADIANS(S.latitude) - RADIANS(A.latitude)) / 2), 2) +
                                           COS(RADIANS(A.latitude)) * COS(RADIANS(S.latitude)) *
                                           POWER(SIN((RADIANS((S.longitude)) -
                                                      RADIANS(A.longitude)) / 2),
                                                 2)))) AS distance_to_park,
                            S.park_name,
                            A.price,
                            A.number_of_reviews,
                            A.city,
                            A.state,
                            A.host_name,
                            A.room_type,
                            A.minimum_nights,
                            A.availability_365
                     FROM parks S,
                          (SELECT * FROM Airbnb WHERE state LIKE '%" ++
  JsValue.toStr state ++
  "%') A
                     GROUP BY S.park_name, S.longitude, S.latitude, A.name, A.price, A.longitude, A.latitude,
                              A.number_of_reviews, A.state, A.host_name, A.room_type, A.minimum_nights,
                              A.availability_365, A.city),
     ranked_park_airbinb AS (SELECT *,
                                    ROW_NUMBER() OVER (PARTITION BY park_name
                                        ORDER BY distance_to_park, price, number_of_reviews DESC) AS ranking
                             FROM park_airbnb)
SELECT *
FROM ranked_park_airbinb
WHERE ranking < " ++
  JsValue.toStr (JsValue.plus num (JsValue.number 1)) ++
  "
GROUP BY name, distance_to_park, park_name, price, number_of_reviews, city, state, host_name, room_type, minimum_nights, availability_365
ORDER BY distance_to_park;"

/-- Complex query 1 restricted to a state, over the view `materialized_view_ranked_airbnb_near_park` (`queries.js`, line 241). -/
def recommendedAirbnbInStateForSpeciesOptimized (species num state : JsValue) : String :=
  "SELECT name,
distance_to_park,
park_name,
price,
number_of_reviews,
city,
state,
host_name,
room_type,
minimum_nights,
availability_365,
ranking
FROM (SELECT * FROM materialized_view_ranked_airbnb_near_park WHERE state LIKE '%" ++
  JsValue.toStr state ++
  "%' AND ranking < " ++
  JsValue.toStr (JsValue.plus num (JsValue.number 1)) ++
  ") P
WHERE park_name IN (SELECT DISTINCT park_name
             FROM Species
             WHERE common_names LIKE '%" ++
  JsValue.toStr species ++
  "%')
ORDER BY distance_to_park, park_name, ranking;"

/-- Complex query 2: the listings of a neighbourhood with the highest species count in the parks around them (`queries.js`, line 274). -/
def mostBiodiverseAirbnbs (state neighbourhood distance num : JsValue) : String :=
  "WITH nearby_park AS (SELECT DISTINCT P.park_name, P.state, A.id
                     FROM (SELECT * FROM Park WHERE state LIKE '%" ++
  JsValue.toStr state ++
  "%') P
                              JOIN (SELECT * FROM Airbnb WHERE neighbourhood = '" ++
  JsValue.toStr neighbourhood ++
  "') A
                                   ON EXISTS(
                                           SELECT *
                                           WHERE ((2 *
                                                   ASIN(SQRT(POWER(SIN((RADIANS(P.latitude) - RADIANS(A.latitude)) / 2), 2) +
                                                             COS(RADIANS(A.latitude)) * COS(RADIANS(A.latitude)) *
                                                             POWER(SIN((RADIANS((P.longitude)) -
                                                                        RADIANS(A.longitude)) / 2),
                                                                   2)))) < " ++
  JsValue.toStr distance ++
  "
                                                     )
                                       )),
     biodiverse_airbnb AS (SELECT COUNT(S.scientific_name) AS count, P.id
                           FROM Species S
                                    JOIN nearby_park P ON S.park_name = P.park_name
                           GROUP BY P.id
                           ORDER BY count DESC
                           LIMIT " ++
  JsValue.toStr num ++
  ")
SELECT DISTINCT A2.*, A1.count
FROM biodiverse_airbnb A1
         JOIN Airbnb A2 ON A1.id = A2.id;"

/-- Complex query 2, over the view `materialized_view_ranked_airbnb_near_park` (`queries.js`, line 308). -/
def mostBiodiverseAirbnbsOptimized (state neighbourhood distance num : JsValue) : String :=
  "WITH nearby_airbnb AS (SELECT *
  FROM materialized_view_ranked_airbnb_near_park
  WHERE state LIKE '%" ++
  JsValue.toStr state ++
  "%'
    AND distance_to_park < " ++
  JsValue.toStr distance ++
  "
    AND neighbourhood = '" ++
  JsValue.toStr neighbourhood ++
  "'),
biodiverse_airbnb AS (SELECT COUNT(S.scientific_name) AS count, A.id
      FROM Species S
               JOIN nearby_airbnb A ON A.park_name = S.park_name
      GROUP BY A.id
      ORDER BY count DESC
      LIMIT " ++
  JsValue.toStr num ++
  ")
SELECT A1.count, A2.*
FROM biodiverse_airbnb A1
JOIN Airbnb A2 ON A1.id = A2.id;"

/-- Complex query 3: the most widespread species of each park that has a popular trail (`queries.js`, line 334). -/
def popularSpecies (num : JsValue) : String :=
  "WITH COUNT AS (
SELECT scientific_name, COUNT(DISTINCT park_name) AS species_count
FROM Species
GROUP BY scientific_name),
popular_park_species AS (
SELECT S.park_name,C.scientific_name, ROW_NUMBER() over (PARTITION BY S.park_name ORDER BY C.species_count DESC) AS ranks
FROM COUNT C JOIN Species S ON C.scientific_name=S.scientific_name JOIN Trail T on S.park_name = T.park_name
WHERE T.popularity >= 6.5731
GROUP BY S.park_name, C.scientific_name
ORDER BY S.park_name, C.species_count DESC)
SELECT *
FROM popular_park_species P
WHERE P.ranks <= " ++
  JsValue.toStr num ++
  ";"

/-- Complex query 3, over the view `materialized_view_ranked_species_in_popular_park` (`queries.js`, line 356). -/
def popularSpeciesOptimized (num : JsValue) : String :=
  "SELECT *
FROM materialized_view_ranked_species_in_popular_park
WHERE ranking < " ++
  JsValue.toStr num ++
  "
ORDER BY park_name, ranking;"

/-- Complex query 4: the species seen most often near the 100 most reviewed listings (`queries.js`, line 374). -/
def speciesForPhotographers (num : JsValue) : String :=
  "WITH top_airbnbs AS (
  SELECT *
  FROM Airbnb
  ORDER BY number_of_reviews DESC
  LIMIT 100
),

nearby_parks AS (
  SELECT DISTINCT a.id, p.park_code
  FROM top_airbnbs a
  JOIN Park p ON (
      3958.8 * (2 * ASIN(SQRT(POWER(SIN((RADIANS(a.latitude) - RADIANS(p.latitude)) / 2), 2) +
                        COS(RADIANS(a.latitude)) * COS(RADIANS(p.latitude)) *
                        POWER(SIN((RADIANS((a.longitude)) - RADIANS(p.longitude)) / 2), 2))))
      ) <= 100
),

species_counts AS (
  SELECT s.species_id, COUNT(*) AS occurrence_count
  FROM nearby_parks np
      JOIN Trail t ON np.park_code = t.park_code
      JOIN Species s ON t.park_name = s.park_name
  WHERE t.popularity <= 6
  GROUP BY s.species_id
)

SELECT s.species_id, s.common_names, sc.occurrence_count
FROM Species s
JOIN species_counts sc ON s.species_id = sc.species_id
ORDER BY sc.occurrence_count DESC
LIMIT " ++
  JsValue.toStr num ++
  ";"

/-- Complex query 4, over the view `materialized_view_ranked_species_near_top_airbnb` (`queries.js`, line 415). -/
def speciesForPhotographersOptimized (num : JsValue) : String :=
  "SELECT *
FROM materialized_view_ranked_species_near_top_airbnb
ORDER BY occurrence_count DESC, species_id
LIMIT " ++
  JsValue.toStr num ++
  ";"


/-- A call of one of the builders above.  Each is an arrow function whose
body is a single template literal over its parameters, with no validation
and no `throw`, so the call returns the statement text. -/
def call (statement : String) : Completion String :=
  Completion.normal statement

/-- The last `k` characters of a statement. -/
def lastChars (k : Nat) (statement : String) : String :=
  String.mk (statement.toList.reverse.take k).reverse

end queries

/-! ## The tables -/

namespace Eval

/-- Modelled from the spec: the table definitions are not part of the
repository; the columns are those of the data model (section 3), all of
them holding a value.  A row of `Park`. -/
structure Park where
  park_code : String
  park_name : String
  state : String
  acres : ℚ
  latitude : ℚ
  longitude : ℚ
  deriving DecidableEq

/-- Modelled from the spec: a row of `Species` (data model, section 3): one
row per species observed in a park. -/
structure Species where
  species_id : Nat
  scientific_name : String
  common_names : String
  category : String
  park_name : String
  deriving DecidableEq

/-- Modelled from the spec: a row of `Trail` (data model, section 3). -/
structure Trail where
  park_code : String
  park_name : String
  name : String
  length : ℚ
  avg_rating : ℚ
  popularity : ℚ
  deriving DecidableEq

/-- Modelled from the spec: a row of `Airbnb` (the listing of the data
model, section 3). -/
structure Airbnb where
  id : Nat
  name : String
  latitude : ℚ
  longitude : ℚ
  price : ℚ
  number_of_reviews : Int
  city : String
  state : String
  neighbourhood : String
  host_name : String
  room_type : String
  minimum_nights : Int
  availability_365 : Int
  deriving DecidableEq

/-- A data snapshot: the four tables the statements read. -/
structure Database where
  park : List Park
  species : List Species
  trail : List Trail
  airbnb : List Airbnb

/-! ## Relational primitives -/

/-- Whether the characters `t` open the characters `s`. -/
def startsWith : List Char → List Char → Bool
  | [], _ => true
  | _ :: _, [] => false
  | a :: t, b :: s => a == b && startsWith t s

/-- Whether the characters `t` occur consecutively somewhere in `s`. -/
def containsChars (t : List Char) : List Char → Bool
  | [] => startsWith t []
  | b :: s => startsWith t (b :: s) || containsChars t s

/-- The predicate `subject LIKE '%term%'` for a term without the wildcard
characters `%` and `_`, under a case-sensitive collation: containment of the
term as it is written (section 4.2 of the specification).  Under a
case-insensitive collation the engine also accepts a term that differs from
the subject in case only. -/
def likeContains (term subject : String) : Bool :=
  containsChars term.toList subject.toList

/-- The rows of `GROUP BY key`: one row per distinct key, the first of its
group standing for the group. -/
def groupRows {α κ : Type} [DecidableEq κ] (key : α → κ) (rows : List α) : List α :=
  (rows.map key).dedup.filterMap fun k => rows.find? fun r => decide (key r = k)

/-- Number the rows of a list upwards from `i`. -/
def numberFrom {α : Type} : Nat → List α → List (α × Nat)
  | _, [] => []
  | i, a :: rows => (a, i) :: numberFrom (i + 1) rows

/-- The window `ROW_NUMBER() OVER (PARTITION BY part ORDER BY le)`: within
each partition the rows are sorted by `le` and numbered from 1.  Rows that
tie under `le` keep their relative order, one of the numberings the engine
may produce. -/
def rowNumber {α κ : Type} [DecidableEq κ] (part : α → κ) (le : α → α → Prop)
    [DecidableRel le] (rows : List α) : List (α × Nat) :=
  (rows.map part).dedup.flatMap fun k =>
    numberFrom 1 ((rows.filter fun r => decide (part r = k)).insertionSort le)

/-! ## Recommended listings for a species (complex query 1) -/

/-- A row of the common table expression `parks`. -/
structure ParksRow where
  park_name : String
  longitude : ℚ
  latitude : ℚ
  deriving DecidableEq

/-- A row of the common table expression `park_airbnb`. -/
structure ParkAirbnb where
  name : String
  distance_to_park : ℚ
  park_name : String
  price : ℚ
  number_of_reviews : Int
  city : String
  state : String
  host_name : String
  room_type : String
  minimum_nights : Int
  availability_365 : Int
  deriving DecidableEq

/-- A row of `ranked_park_airbinb`: the columns of `park_airbnb` and the
`ranking`. -/
structure RankedParkAirbnb extends ParkAirbnb where
  ranking : Nat
  deriving DecidableEq

/-- The expression `parks` of `recommendedAirbnbForSpecies`:
`SELECT DISTINCT S.park_name, P.longitude, P.latitude FROM Park P JOIN
Species S ON P.park_name = S.park_name WHERE common_names LIKE '%species%'`. -/
def parks (species : String) (db : Database) : List ParksRow :=
  (db.park.flatMap fun P =>
    (db.species.filter fun S =>
        decide (P.park_name = S.park_name) && likeContains species S.common_names).map
      fun S => { park_name := S.park_name, longitude := P.longitude, latitude := P.latitude }).dedup

/-- The expression `parks` of `recommendedAirbnbInStateForSpecies`: as
`parks`, with `AND state LIKE '%state%'` (the column of `Park`). -/
def parksInState (species state : String) (db : Database) : List ParksRow :=
  (db.park.flatMap fun P =>
    (db.species.filter fun S =>
        decide (P.park_name = S.park_name) &&
          (likeContains species S.common_names && likeContains state P.state)).map
      fun S => { park_name := S.park_name, longitude := P.longitude, latitude := P.latitude }).dedup

/-- The grouping columns of `park_airbnb`, in the order of its `GROUP BY`. -/
structure ParkAirbnbKey where
  S_park_name : String
  S_longitude : ℚ
  S_latitude : ℚ
  A_name : String
  A_price : ℚ
  A_longitude : ℚ
  A_latitude : ℚ
  A_number_of_reviews : Int
  A_state : String
  A_host_name : String
  A_room_type : String
  A_minimum_nights : Int
  A_availability_365 : Int
  A_city : String
  deriving DecidableEq

/-- The value of the grouping columns of `park_airbnb` on a pair of the
product `parks S, (...) A`. -/
def park_airbnb_key (r : ParksRow × Airbnb) : ParkAirbnbKey :=
  { S_park_name := r.1.park_name
    S_longitude := r.1.longitude
    S_latitude := r.1.latitude
    A_name := r.2.name
    A_price := r.2.price
    A_longitude := r.2.longitude
    A_latitude := r.2.latitude
    A_number_of_reviews := r.2.number_of_reviews
    A_state := r.2.state
    A_host_name := r.2.host_name
    A_room_type := r.2.room_type
    A_minimum_nights := r.2.minimum_nights
    A_availability_365 := r.2.availability_365
    A_city := r.2.city }

/-- The expression `park_airbnb`: the product of `parks S` and the listings
`A`, grouped by `park_airbnb_key`, with the distance of each pair.  `dist`
is the engine's value of the distance expression at
`(S.latitude, S.longitude, A.latitude, A.longitude)`. -/
def park_airbnb (dist : ℚ → ℚ → ℚ → ℚ → ℚ) (S : List ParksRow) (A : List Airbnb) :
    List ParkAirbnb :=
  (groupRows park_airbnb_key (S.flatMap fun s => A.map fun a => (s, a))).map fun r =>
    { name := r.2.name
      distance_to_park := dist r.1.latitude r.1.longitude r.2.latitude r.2.longitude
      park_name := r.1.park_name
      price := r.2.price
      number_of_reviews := r.2.number_of_reviews
      city := r.2.city
      state := r.2.state
      host_name := r.2.host_name
      room_type := r.2.room_type
      minimum_nights := r.2.minimum_nights
      availability_365 := r.2.availability_365 }

/-- The window order `ORDER BY distance_to_park, price, number_of_reviews
DESC`: `a` is placed no later than `b`. -/
def rankOrder (a b : ParkAirbnb) : Prop :=
  a.distance_to_park < b.distance_to_park ∨
    (a.distance_to_park = b.distance_to_park ∧
      (a.price < b.price ∨ (a.price = b.price ∧ b.number_of_reviews ≤ a.number_of_reviews)))

instance rankOrder.decidable : DecidableRel rankOrder := fun a b => by
  unfold rankOrder; exact inferInstance

/-- The expression `ranked_park_airbinb`: `SELECT *, ROW_NUMBER() OVER
(PARTITION BY park_name ORDER BY distance_to_park, price, number_of_reviews
DESC) AS ranking FROM park_airbnb`. -/
def ranked_park_airbinb (rows : List ParkAirbnb) : List RankedParkAirbnb :=
  (rowNumber (fun r => r.park_name) rankOrder rows).map fun p =>
    { toParkAirbnb := p.1, ranking := p.2 }

/-- The filter `WHERE ranking < num + 1`, for a number `num`. -/
def whereRanking (num : Int) (rows : List RankedParkAirbnb) : List RankedParkAirbnb :=
  rows.filter fun r => decide ((r.ranking : Int) < num + 1)

/-- The final `SELECT * FROM ranked_park_airbinb WHERE ranking < num + 1
GROUP BY` (every column but `ranking`) `ORDER BY distance_to_park`. -/
def selectRanked (num : Int) (rows : List RankedParkAirbnb) : List RankedParkAirbnb :=
  (groupRows (fun r => r.toParkAirbnb) (whereRanking num rows)).insertionSort
    fun a b => a.distance_to_park ≤ b.distance_to_park

/-- The candidate rows of `queries.recommendedAirbnbForSpecies`, those of its
`park_airbnb`: every park of `parks` with every listing of `SELECT * FROM
Airbnb WHERE number_of_reviews > 150`. -/
def candidatesForSpecies (dist : ℚ → ℚ → ℚ → ℚ → ℚ) (species : String) (db : Database) :
    List ParkAirbnb :=
  park_airbnb dist (parks species db)
    (db.airbnb.filter fun A => decide (150 < A.number_of_reviews))

/-- The rows of `ranked_park_airbinb` in the statement of
`queries.recommendedAirbnbForSpecies`: its listings are `SELECT * FROM Airbnb
WHERE number_of_reviews > 150`. -/
def rankedForSpecies (dist : ℚ → ℚ → ℚ → ℚ → ℚ) (species : String) (db : Database) :
    List RankedParkAirbnb :=
  ranked_park_airbinb (park_airbnb dist (parks species db)
    (db.airbnb.filter fun A => decide (150 < A.number_of_reviews)))

/-- The rows of the statement of `queries.recommendedAirbnbForSpecies`. -/
def recommendedAirbnbForSpecies (dist : ℚ → ℚ → ℚ → ℚ → ℚ) (species : String) (num : Int)
    (db : Database) : List RankedParkAirbnb :=
  selectRanked num (rankedForSpecies dist species db)

/-- The rows of `ranked_park_airbinb` in the statement of
`queries.recommendedAirbnbInStateForSpecies`: its listings are `SELECT * FROM
Airbnb WHERE state LIKE '%state%'`. -/
def rankedInStateForSpecies (dist : ℚ → ℚ → ℚ → ℚ → ℚ) (species state : String)
    (db : Database) : List RankedParkAirbnb :=
  ranked_park_airbinb (park_airbnb dist (parksInState species state db)
    (db.airbnb.filter fun A => likeContains state A.state))

/-- The rows of the statement of `queries.recommendedAirbnbInStateForSpecies`. -/
def recommendedAirbnbInStateForSpecies (dist : ℚ → ℚ → ℚ → ℚ → ℚ) (species : String)
    (num : Int) (state : String) (db : Database) : List RankedParkAirbnb :=
  selectRanked num (rankedInStateForSpecies dist species state db)

/-! ## Most biodiverse listings (complex query 2) -/

/-- A row of the common table expression `nearby_park`. -/
structure NearbyPark where
  park_name : String
  state : String
  id : Nat
  deriving DecidableEq

/-- A row of the common table expression `biodiverse_airbnb`. -/
structure BiodiverseAirbnb where
  count : Nat
  id : Nat
  deriving DecidableEq

/-- The expression `nearby_park`: `SELECT DISTINCT P.park_name, P.state, A.id`
over the parks with `state LIKE '%state%'` joined to the listings with
`neighbourhood = '...'`.  `near P A` is the engine's value of the `ON EXISTS
(...)` condition on the pair, for the `distance` of the call. -/
def nearby_park (near : Park → Airbnb → Bool) (state neighbourhood : String) (db : Database) :
    List NearbyPark :=
  ((db.park.filter fun P => likeContains state P.state).flatMap fun P =>
    ((db.airbnb.filter fun A => decide (A.neighbourhood = neighbourhood)).filter
        fun A => near P A).map
      fun A => { park_name := P.park_name, state := P.state, id := A.id }).dedup

/-- The listing ids of the join `Species S JOIN nearby_park P ON S.park_name =
P.park_name`, one per joined row. -/
def speciesNearbyJoin (np : List NearbyPark) (db : Database) : List Nat :=
  db.species.flatMap fun S =>
    (np.filter fun P => decide (S.park_name = P.park_name)).map fun P => P.id

/-- The groups of `GROUP BY P.id` with `COUNT(S.scientific_name) AS count`,
before the `ORDER BY` and the `LIMIT`. -/
def biodiverseGroups (np : List NearbyPark) (db : Database) : List BiodiverseAirbnb :=
  (speciesNearbyJoin np db).dedup.map fun i =>
    { count := (speciesNearbyJoin np db).count i, id := i }

/-- The expression `biodiverse_airbnb`: the groups in `ORDER BY count DESC`,
cut by `LIMIT num` (a statement with a negative limit is not valid, so `num`
is a natural number here).  Groups with the same count keep their relative
order, one of the orders the engine may produce. -/
def biodiverse_airbnb (np : List NearbyPark) (num : Nat) (db : Database) :
    List BiodiverseAirbnb :=
  ((biodiverseGroups np db).insertionSort fun a b => b.count ≤ a.count).take num

/-- The rows of the statement of `queries.mostBiodiverseAirbnbs`:
`SELECT DISTINCT A2.*, A1.count FROM biodiverse_airbnb A1 JOIN Airbnb A2 ON
A1.id = A2.id`. -/
def mostBiodiverseAirbnbs (near : Park → Airbnb → Bool) (state neighbourhood : String)
    (num : Nat) (db : Database) : List (Airbnb × Nat) :=
  ((biodiverse_airbnb (nearby_park near state neighbourhood db) num db).flatMap fun A1 =>
    (db.airbnb.filter fun A2 => decide (A1.id = A2.id)).map fun A2 => (A2, A1.count)).dedup

/-! ## Popular species per park (complex query 3) -/

/-- A row of the common table expression `COUNT`. -/
structure CountRow where
  scientific_name : String
  species_count : Nat
  deriving DecidableEq

/-- A group of `popular_park_species` before the ranking. -/
structure ParkSpeciesCount where
  park_name : String
  scientific_name : String
  species_count : Nat
  deriving DecidableEq

/-- A row of the common table expression `popular_park_species`. -/
structure PopularParkSpecies where
  park_name : String
  scientific_name : String
  ranks : Nat
  deriving DecidableEq

/-- A row of `materialized_view_ranked_species_in_popular_park`. -/
structure RankedSpeciesInPopularPark where
  park_name : String
  scientific_name : String
  ranking : Nat
  deriving DecidableEq

/-- The expression `COUNT`: `SELECT scientific_name, COUNT(DISTINCT park_name)
AS species_count FROM Species GROUP BY scientific_name`. -/
def COUNT (db : Database) : List CountRow :=
  (db.species.map fun S => S.scientific_name).dedup.map fun n =>
    { scientific_name := n
      species_count :=
        ((db.species.filter fun S => decide (S.scientific_name = n)).map
          fun S => S.park_name).dedup.length }

/-- The join of `popular_park_species`: `COUNT C JOIN Species S ON
C.scientific_name=S.scientific_name JOIN Trail T on S.park_name = T.park_name
WHERE T.popularity >= 6.5731`, one entry per joined row. -/
def popularJoin (db : Database) : List ParkSpeciesCount :=
  (COUNT db).flatMap fun C =>
    (db.species.filter fun S => decide (C.scientific_name = S.scientific_name)).flatMap fun S =>
      (db.trail.filter fun T =>
          decide (S.park_name = T.park_name) && decide ((6.5731 : ℚ) ≤ T.popularity)).map
        fun _ =>
          { park_name := S.park_name
            scientific_name := C.scientific_name
            species_count := C.species_count }

/-- The order `ORDER BY S.park_name, C.species_count DESC` at the end of
`popular_park_species`. -/
def popularOrder (a b : ParkSpeciesCount × Nat) : Prop :=
  a.1.park_name < b.1.park_name ∨
    (a.1.park_name = b.1.park_name ∧ b.1.species_count ≤ a.1.species_count)

instance popularOrder.decidable : DecidableRel popularOrder := fun a b => by
  unfold popularOrder; exact inferInstance

/-- The expression `popular_park_species`: the join grouped by
`S.park_name, C.scientific_name`, each group numbered by `ROW_NUMBER() over
(PARTITION BY S.park_name ORDER BY C.species_count DESC) AS ranks`, in the
order of its `ORDER BY`. -/
def popular_park_species (db : Database) : List PopularParkSpecies :=
  ((rowNumber (fun g : ParkSpeciesCount => g.park_name)
      (fun a b => b.species_count ≤ a.species_count)
      (groupRows (fun g : ParkSpeciesCount => (g.park_name, g.scientific_name))
        (popularJoin db))).insertionSort popularOrder).map
    fun p => { park_name := p.1.park_name, scientific_name := p.1.scientific_name, ranks := p.2 }

/-- The rows of the statement of `queries.popularSpecies`: `SELECT * FROM
popular_park_species P WHERE P.ranks <= num`. -/
def popularSpecies (num : Int) (db : Database) : List PopularParkSpecies :=
  (popular_park_species db).filter fun P => decide ((P.ranks : Int) ≤ num)

/-- The order `ORDER BY park_name, ranking` of the statement of
`queries.popularSpeciesOptimized`. -/
def viewOrder (a b : RankedSpeciesInPopularPark) : Prop :=
  a.park_name < b.park_name ∨ (a.park_name = b.park_name ∧ a.ranking ≤ b.ranking)

instance viewOrder.decidable : DecidableRel viewOrder := fun a b => by
  unfold viewOrder; exact inferInstance

/-- The rows of the statement of `queries.popularSpeciesOptimized` over the
rows of the view: `SELECT * FROM
materialized_view_ranked_species_in_popular_park WHERE ranking < num ORDER BY
park_name, ranking`. -/
def popularSpeciesOptimized (num : Int) (view : List RankedSpeciesInPopularPark) :
    List RankedSpeciesInPopularPark :=
  (view.filter fun V => decide ((V.ranking : Int) < num)).insertionSort viewOrder

/-- The row of the view that holds a row of `popular_park_species`: the same
park and species, the rank under the column name `ranking`. -/
def asViewRow (P : PopularParkSpecies) : RankedSpeciesInPopularPark :=
  { park_name := P.park_name, scientific_name := P.scientific_name, ranking := P.ranks }

/-! ## Species near the top listings (complex query 4) -/

/-- A row of the common table expression `nearby_parks`. -/
structure NearbyParks where
  id : Nat
  park_code : String
  deriving DecidableEq

/-- A row of the common table expression `species_counts`. -/
structure SpeciesCount where
  species_id : Nat
  occurrence_count : Nat
  deriving DecidableEq

/-- A row of the statement of `queries.speciesForPhotographers`, and of the
view `materialized_view_ranked_species_near_top_airbnb`. -/
structure SpeciesNearTopAirbnb where
  species_id : Nat
  common_names : String
  occurrence_count : Nat
  deriving DecidableEq

/-- The expression `top_airbnbs`: `SELECT * FROM Airbnb ORDER BY
number_of_reviews DESC LIMIT 100`.  Listings with the same number of reviews
keep their relative order, one of the orders the engine may produce. -/
def top_airbnbs (db : Database) : List Airbnb :=
  (db.airbnb.insertionSort fun a b => b.number_of_reviews ≤ a.number_of_reviews).take 100

/-- The expression `nearby_parks`: `SELECT DISTINCT a.id, p.park_code FROM
top_airbnbs a JOIN Park p ON (...) <= 100`.  `within a p` is the engine's
value of the join condition, the distance expression of the pair compared
with 100. -/
def nearby_parks (within : Airbnb → Park → Bool) (db : Database) : List NearbyParks :=
  ((top_airbnbs db).flatMap fun a =>
    (db.park.filter fun p => within a p).map
      fun p => { id := a.id, park_code := p.park_code }).dedup

/-- The `species_id` of each row of the join of `species_counts`:
`nearby_parks np JOIN Trail t ON np.park_code = t.park_code JOIN Species s ON
t.park_name = s.park_name WHERE t.popularity <= 6`. -/
def speciesCountsJoin (within : Airbnb → Park → Bool) (db : Database) : List Nat :=
  (nearby_parks within db).flatMap fun np =>
    (db.trail.filter fun t =>
        decide (np.park_code = t.park_code) && decide (t.popularity ≤ 6)).flatMap fun t =>
      (db.species.filter fun s => decide (t.park_name = s.park_name)).map fun s => s.species_id

/-- The expression `species_counts`: the join grouped by `s.species_id`, with
`COUNT(*) AS occurrence_count`. -/
def species_counts (within : Airbnb → Park → Bool) (db : Database) : List SpeciesCount :=
  (speciesCountsJoin within db).dedup.map fun i =>
    { species_id := i, occurrence_count := (speciesCountsJoin within db).count i }

/-- The rows of the final `SELECT s.species_id, s.common_names,
sc.occurrence_count FROM Species s JOIN species_counts sc ON s.species_id =
sc.species_id` of `queries.speciesForPhotographers`, before its `ORDER BY`
and `LIMIT`. -/
def speciesForPhotographersRows (within : Airbnb → Park → Bool) (db : Database) :
    List SpeciesNearTopAirbnb :=
  db.species.flatMap fun s =>
    ((species_counts within db).filter fun sc => decide (s.species_id = sc.species_id)).map
      fun sc =>
        { species_id := s.species_id
          common_names := s.common_names
          occurrence_count := sc.occurrence_count }

/-- The sequences `ORDER BY ... LIMIT num` may return over `rows`: the first
`num` rows of an arrangement of the rows that the order `le` accepts.  The
statement fixes the order of two rows only as far as `le` does. -/
def orderByLimit {α : Type} (le : α → α → Prop) (rows : List α) (num : Nat)
    (out : List α) : Prop :=
  ∃ arranged : List α, arranged.Perm rows ∧ arranged.Sorted le ∧ out = arranged.take num

/-- The results of the statement of `queries.speciesForPhotographers`:
`ORDER BY sc.occurrence_count DESC LIMIT num` over its rows. -/
def speciesForPhotographers (within : Airbnb → Park → Bool) (num : Nat) (db : Database)
    (out : List SpeciesNearTopAirbnb) : Prop :=
  orderByLimit (fun a b => b.occurrence_count ≤ a.occurrence_count)
    (speciesForPhotographersRows within db) num out

/-- The order `ORDER BY occurrence_count DESC, species_id` of the statement of
`queries.speciesForPhotographersOptimized`. -/
def viewCountOrder (a b : SpeciesNearTopAirbnb) : Prop :=
  b.occurrence_count < a.occurrence_count ∨
    (a.occurrence_count = b.occurrence_count ∧ a.species_id ≤ b.species_id)

/-- The results of the statement of `queries.speciesForPhotographersOptimized`
over the rows of the view: `SELECT * FROM
materialized_view_ranked_species_near_top_airbnb ORDER BY occurrence_count
DESC, species_id LIMIT num`. -/
def speciesForPhotographersOptimized (view : List SpeciesNearTopAirbnb) (num : Nat)
    (out : List SpeciesNearTopAirbnb) : Prop :=
  orderByLimit viewCountOrder view num out

/-! ## The count of complex query 2 as the specification words it -/

/-- The count of a listing in the words of the specification: the number of
distinct species (scientific names) observed in at least one park that
`nearby_park` pairs with the listing `id`. -/
def distinctSpeciesCount (np : List NearbyPark) (db : Database) (id : Nat) : Nat :=
  ((db.species.filter fun S =>
      np.any fun P => decide (P.id = id) && decide (P.park_name = S.park_name)).map
    fun S => S.scientific_name).dedup.length

/-! ## A data snapshot for the examples -/

/-- The listing of the example snapshot that lies in Alaska. -/
def lodge : Airbnb :=
  { id := 21, name := "Lodge", latitude := 61, longitude := -150, price := 150,
    number_of_reviews := 200, city := "Anchorage", state := "AK", neighbourhood := "Downtown",
    host_name := "Dee", room_type := "Private room", minimum_nights := 1,
    availability_365 := 300 }

/-- An example snapshot.  Acadia (Maine) has a trail of popularity 7 and a
seal; Katmai (Alaska) has a trail of popularity 3 only and Denali (Alaska) no
trail, and a brown bear is recorded in both.  Three listings are in Maine,
one of them without any review, and one listing is in Alaska. -/
def snapshot : Database :=
  { park := [{ park_code := "ACAD", park_name := "Acadia", state := "ME", acres := 47390,
               latitude := 44, longitude := -68 },
             { park_code := "KATM", park_name := "Katmai", state := "AK", acres := 3674530,
               latitude := 58, longitude := -155 },
             { park_code := "DENA", park_name := "Denali", state := "AK", acres := 4740912,
               latitude := 63, longitude := -151 }]
    species := [{ species_id := 1, scientific_name := "Phoca vitulina",
                  common_names := "Harbor seal", category := "Mammal", park_name := "Acadia" },
                { species_id := 2, scientific_name := "Ursus arctos",
                  common_names := "Brown bear", category := "Mammal", park_name := "Katmai" },
                { species_id := 3, scientific_name := "Ursus arctos",
                  common_names := "Grizzly bear", category := "Mammal", park_name := "Denali" }]
    trail := [{ park_code := "ACAD", park_name := "Acadia", name := "Ocean Path", length := 4,
                avg_rating := 5, popularity := 7 },
              { park_code := "KATM", park_name := "Katmai", name := "Brooks Falls", length := 1,
                avg_rating := 5, popularity := 3 }]
    airbnb := [{ id := 7, name := "Cabin", latitude := 44, longitude := -69, price := 80,
                 number_of_reviews := 0, city := "Bar Harbor", state := "ME",
                 neighbourhood := "Village", host_name := "Ann", room_type := "Entire home",
                 minimum_nights := 1, availability_365 := 200 },
               { id := 8, name := "Loft", latitude := 45, longitude := -68, price := 120,
                 number_of_reviews := 300, city := "Bar Harbor", state := "ME",
                 neighbourhood := "Village", host_name := "Bo", room_type := "Entire home",
                 minimum_nights := 2, availability_365 := 100 },
               { id := 9, name := "Barn", latitude := 43, longitude := -68, price := 95,
                 number_of_reviews := 180, city := "Bar Harbor", state := "ME",
                 neighbourhood := "Village", host_name := "Cy", room_type := "Entire home",
                 minimum_nights := 1, availability_365 := 150 },
               lodge] }

/-- A distance value for the examples: the differences of the two latitudes
and of the two longitudes, in absolute value, added. -/
def gridDistance (lat1 lon1 lat2 lon2 : ℚ) : ℚ :=
  |lat1 - lat2| + |lon1 - lon2|

/-- The rows of `park_airbnb` of `recommendedAirbnbForSpecies` for the
species `seal` on the example snapshot. -/
def sealRows : List ParkAirbnb :=
  park_airbnb gridDistance (parks "seal" snapshot)
    (snapshot.airbnb.filter fun A => decide (150 < A.number_of_reviews))

/-- The row of the listing `Barn` next to Acadia, with rank 1. -/
def barnRanked : RankedParkAirbnb :=
  { name := "Barn", distance_to_park := 1, park_name := "Acadia", price := 95,
    number_of_reviews := 180, city := "Bar Harbor", state := "ME", host_name := "Cy",
    room_type := "Entire home", minimum_nights := 1, availability_365 := 150, ranking := 1 }

/-- The row of the listing `Loft` next to Acadia, with rank 2. -/
def loftRanked : RankedParkAirbnb :=
  { name := "Loft", distance_to_park := 1, park_name := "Acadia", price := 120,
    number_of_reviews := 300, city := "Bar Harbor", state := "ME", host_name := "Bo",
    room_type := "Entire home", minimum_nights := 2, availability_365 := 100, ranking := 2 }

/-- A second example snapshot: the park Katmai with a trail of popularity 3,
two species recorded in it, and one listing at the coordinates of the park. -/
def katmaiCamp : Database :=
  { park := [{ park_code := "KATM", park_name := "Katmai", state := "AK", acres := 3674530,
               latitude := 58, longitude := -155 }]
    species := [{ species_id := 2, scientific_name := "Ursus arctos",
                  common_names := "Brown bear", category := "Mammal", park_name := "Katmai" },
                { species_id := 4, scientific_name := "Oncorhynchus nerka",
                  common_names := "Sockeye salmon", category := "Fish", park_name := "Katmai" }]
    trail := [{ park_code := "KATM", park_name := "Katmai", name := "Brooks Falls", length := 1,
                avg_rating := 5, popularity := 3 }]
    airbnb := [{ id := 31, name := "Camp", latitude := 58, longitude := -155, price := 60,
                 number_of_reviews := 40, city := "King Salmon", state := "AK",
                 neighbourhood := "Brooks", host_name := "Eli", room_type := "Shared room",
                 minimum_nights := 1, availability_365 := 90 }] }

/-- The row of the brown bear of `katmaiCamp`, seen once. -/
def bearRow : SpeciesNearTopAirbnb :=
  { species_id := 2, common_names := "Brown bear", occurrence_count := 1 }

/-- The row of the sockeye salmon of `katmaiCamp`, seen once. -/
def salmonRow : SpeciesNearTopAirbnb :=
  { species_id := 4, common_names := "Sockeye salmon", occurrence_count := 1 }

/-- A third example snapshot: Acadia with its seal, and two listings of one
host that agree in every column the statement returns (name, price, reviews,
city, state, host, room type, nights, availability) and lie one degree north
and one degree south of the park, at the same distance from it. -/
def twinAcadia : Database :=
  { park := [{ park_code := "ACAD", park_name := "Acadia", state := "ME", acres := 47390,
               latitude := 44, longitude := -68 }]
    species := [{ species_id := 1, scientific_name := "Phoca vitulina",
                  common_names := "Harbor seal", category := "Mammal", park_name := "Acadia" }]
    trail := []
    airbnb := [{ id := 41, name := "Twin", latitude := 45, longitude := -68, price := 100,
                 number_of_reviews := 200, city := "Bar Harbor", state := "ME",
                 neighbourhood := "Village", host_name := "Fay", room_type := "Entire home",
                 minimum_nights := 1, availability_365 := 120 },
               { id := 42, name := "Twin", latitude := 43, longitude := -68, price := 100,
                 number_of_reviews := 200, city := "Bar Harbor", state := "ME",
                 neighbourhood := "Village", host_name := "Fay", room_type := "Entire home",
                 minimum_nights := 1, availability_365 := 120 }] }

end Eval

/-! ## The distance expression over the real numbers -/

namespace Geo

noncomputable section

/-- The SQL function `RADIANS`: degrees to radians. -/
def RADIANS (x : ℝ) : ℝ := x * Real.pi / 180

/-- The argument of `SQRT` in the distance expression of
`recommendedAirbnbForSpecies`, `recommendedAirbnbInStateForSpecies`,
`airbnbsNearPark` and `speciesForPhotographers`: `POWER(SIN((RADIANS(lat1) -
RADIANS(lat2)) / 2), 2) + COS(RADIANS(lat2)) * COS(RADIANS(lat1)) *
POWER(SIN((RADIANS(lon1) - RADIANS(lon2)) / 2), 2)`. -/
def haversine (lat1 lon1 lat2 lon2 : ℝ) : ℝ :=
  Real.sin ((RADIANS lat1 - RADIANS lat2) / 2) ^ 2 +
    Real.cos (RADIANS lat2) * Real.cos (RADIANS lat1) *
      Real.sin ((RADIANS lon1 - RADIANS lon2) / 2) ^ 2

/-- The distance expression `3958.8 * (2 * ASIN(SQRT(...)))` of the
statements, in miles, between the point `(lat1, lon1)` (the park in
`park_airbnb`) and the point `(lat2, lon2)` (the listing). -/
def distance_to_park (lat1 lon1 lat2 lon2 : ℝ) : ℝ :=
  3958.8 * (2 * Real.arcsin (Real.sqrt (haversine lat1 lon1 lat2 lon2)))

/-- The argument of `SQRT` in the `ON EXISTS` condition of
`mostBiodiverseAirbnbs`, for the park `P` and the listing `A`:
`POWER(SIN((RADIANS(P.latitude) - RADIANS(A.latitude)) / 2), 2) +
COS(RADIANS(A.latitude)) * COS(RADIANS(A.latitude)) *
POWER(SIN((RADIANS((P.longitude)) - RADIANS(A.longitude)) / 2), 2)`. -/
def nearbyArg (P_latitude P_longitude A_latitude A_longitude : ℝ) : ℝ :=
  Real.sin ((RADIANS P_latitude - RADIANS A_latitude) / 2) ^ 2 +
    Real.cos (RADIANS A_latitude) * Real.cos (RADIANS A_latitude) *
      Real.sin ((RADIANS P_longitude - RADIANS A_longitude) / 2) ^ 2

/-- The `ON EXISTS` condition of `mostBiodiverseAirbnbs`: `(2 *
ASIN(SQRT(...))) < distance`.  `ASIN` has no value outside `[-1, 1]`, and the
condition does not hold then. -/
def nearby_park_on (P_latitude P_longitude A_latitude A_longitude distance : ℝ) : Prop :=
  Real.sqrt (nearbyArg P_latitude P_longitude A_latitude A_longitude) ≤ 1 ∧
    2 * Real.arcsin (Real.sqrt (nearbyArg P_latitude P_longitude A_latitude A_longitude)) <
      distance

end

end Geo

/-! ## Properties -/

namespace Eval

/-! ## Numbering and ranking lemmas -/

theorem numberFrom_mem {α : Type} (l : List α) (i : Nat) (p : α × Nat)
    (h : p ∈ numberFrom i l) : p.1 ∈ l ∧ i ≤ p.2 ∧ p.2 < i + l.length := by
  induction l generalizing i with
  | nil => simp [numberFrom] at h
  | cons a t ih =>
    simp only [numberFrom, List.mem_cons] at h
    rcases h with h | h
    · subst h
      simp
    · have := ih (i + 1) h
      simp only [List.mem_cons, List.length_cons]
      exact ⟨Or.inr this.1, by omega, by omega⟩

theorem numberFrom_map_snd {α : Type} (l : List α) (i : Nat) :
    (numberFrom i l).map Prod.snd = List.range' i l.length := by
  induction l generalizing i with
  | nil => simp [numberFrom]
  | cons a t ih => simp [numberFrom, ih, List.range'_succ]

theorem numberFrom_map_fst {α : Type} (l : List α) (i : Nat) :
    (numberFrom i l).map Prod.fst = l := by
  induction l generalizing i with
  | nil => simp [numberFrom]
  | cons a t ih => simp [numberFrom, ih]

theorem numberFrom_length {α : Type} (l : List α) (i : Nat) :
    (numberFrom i l).length = l.length := by
  induction l generalizing i with
  | nil => simp [numberFrom]
  | cons a t ih => simp [numberFrom, ih]

theorem numberFrom_filter_lt {α : Type} (l : List α) (i k : Nat) :
    (numberFrom i l).filter (fun p => decide (p.2 < i + k)) = numberFrom i (l.take k) := by
  induction l generalizing i k with
  | nil => simp [numberFrom]
  | cons a t ih =>
    cases k with
    | zero =>
      simp only [numberFrom, List.take_zero, Nat.add_zero, List.filter_eq_nil_iff]
      intro p hp
      simp only [List.mem_cons] at hp
      rcases hp with hp | hp
      · subst hp; simp
      · have := numberFrom_mem t (i + 1) p hp
        simp only [decide_eq_true_eq]; omega
    | succ k =>
      have e : i + (k + 1) = (i + 1) + k := by omega
      simp only [numberFrom, List.take_succ_cons, e]
      rw [List.filter_cons_of_pos (by simp only [decide_eq_true_eq]; omega), ih]

theorem numberFrom_sorted {α : Type} (le : α → α → Prop) (l : List α) (i : Nat)
    (hs : l.Sorted le) (p q : α × Nat) (hp : p ∈ numberFrom i l) (hq : q ∈ numberFrom i l)
    (hlt : p.2 < q.2) : le p.1 q.1 := by
  induction l generalizing i with
  | nil => simp [numberFrom] at hp
  | cons a t ih =>
    simp only [numberFrom, List.mem_cons] at hp hq
    rw [List.sorted_cons] at hs
    rcases hp with hp | hp <;> rcases hq with hq | hq
    · subst hp; subst hq; simp at hlt
    · subst hp
      exact hs.1 _ (numberFrom_mem t (i + 1) q hq).1
    · subst hq
      have := numberFrom_mem t (i + 1) p hp
      simp only at hlt
      omega
    · exact ih (i + 1) hs.2 hp hq

theorem flatMap_single_key {κ β : Type} [DecidableEq κ] (f : κ → List β) (k : κ) (ks : List κ)
    (hn : ks.Nodup) :
    (ks.flatMap fun j => if j = k then f j else []) = if k ∈ ks then f k else [] := by
  induction ks with
  | nil => simp
  | cons j t ih =>
    rw [List.nodup_cons] at hn
    simp only [List.flatMap_cons, ih hn.2, List.mem_cons]
    by_cases hj : j = k
    · subst hj
      simp [hn.1]
    · have hk : ¬ k = j := fun e => hj e.symm
      simp [hj, hk]

theorem rowNumber_mem {α κ : Type} [DecidableEq κ] (part : α → κ) (le : α → α → Prop)
    [DecidableRel le] (rows : List α) (p : α × Nat) :
    p ∈ rowNumber part le rows ↔
      p ∈ numberFrom 1 ((rows.filter fun r => decide (part r = part p.1)).insertionSort le) := by
  unfold rowNumber
  simp only [List.mem_flatMap, List.mem_dedup, List.mem_map]
  constructor
  · rintro ⟨k, _, hp⟩
    have h1 := (numberFrom_mem _ _ _ hp).1
    rw [List.mem_insertionSort, List.mem_filter] at h1
    have hk : part p.1 = k := by simpa using h1.2
    rw [hk]; exact hp
  · intro hp
    have h1 := (numberFrom_mem _ _ _ hp).1
    rw [List.mem_insertionSort, List.mem_filter] at h1
    exact ⟨part p.1, ⟨p.1, h1.1, rfl⟩, hp⟩

theorem rowNumber_filter_part {α κ : Type} [DecidableEq κ] (part : α → κ) (le : α → α → Prop)
    [DecidableRel le] (rows : List α) (k : κ) :
    (rowNumber part le rows).filter (fun p => decide (part p.1 = k)) =
      numberFrom 1 ((rows.filter fun r => decide (part r = k)).insertionSort le) := by
  unfold rowNumber
  rw [List.filter_flatMap]
  have hchunk : ∀ j : κ,
      (numberFrom 1 ((rows.filter fun r => decide (part r = j)).insertionSort le)).filter
          (fun p => decide (part p.1 = k)) =
        if j = k then
          numberFrom 1 ((rows.filter fun r => decide (part r = j)).insertionSort le)
        else [] := by
    intro j
    by_cases hj : j = k
    · rw [if_pos hj, List.filter_eq_self]
      intro p hp
      have h1 := (numberFrom_mem _ _ _ hp).1
      rw [List.mem_insertionSort, List.mem_filter] at h1
      have : part p.1 = j := by simpa using h1.2
      simp [this, hj]
    · rw [if_neg hj, List.filter_eq_nil_iff]
      intro p hp
      have h1 := (numberFrom_mem _ _ _ hp).1
      rw [List.mem_insertionSort, List.mem_filter] at h1
      have : part p.1 = j := by simpa using h1.2
      simp [this, hj]
  simp only [hchunk]
  rw [flatMap_single_key _ k _ (List.nodup_dedup _)]
  by_cases hk : k ∈ (rows.map part).dedup
  · rw [if_pos hk]
  · rw [if_neg hk]
    have : (rows.filter fun r => decide (part r = k)) = [] := by
      rw [List.filter_eq_nil_iff]
      intro r hr
      simp only [decide_eq_true_eq]
      intro e
      exact hk (by rw [List.mem_dedup, List.mem_map]; exact ⟨r, hr, e⟩)
    simp [this, numberFrom]


theorem groupRows_subset {α κ : Type} [DecidableEq κ] (key : α → κ) (rows : List α) (r : α)
    (h : r ∈ groupRows key rows) : r ∈ rows := by
  unfold groupRows at h
  rw [List.mem_filterMap] at h
  obtain ⟨_, _, hf⟩ := h
  exact List.mem_of_find?_eq_some hf

theorem rankOrder_total (a b : ParkAirbnb) : rankOrder a b ∨ rankOrder b a := by
  unfold rankOrder
  rcases lt_trichotomy a.distance_to_park b.distance_to_park with h | h | h
  · exact Or.inl (Or.inl h)
  · rcases lt_trichotomy a.price b.price with hp | hp | hp
    · exact Or.inl (Or.inr ⟨h, Or.inl hp⟩)
    · rcases le_total b.number_of_reviews a.number_of_reviews with hr | hr
      · exact Or.inl (Or.inr ⟨h, Or.inr ⟨hp, hr⟩⟩)
      · exact Or.inr (Or.inr ⟨h.symm, Or.inr ⟨hp.symm, hr⟩⟩)
    · exact Or.inr (Or.inr ⟨h.symm, Or.inl hp⟩)
  · exact Or.inr (Or.inl h)

theorem rankOrder_trans (a b c : ParkAirbnb) (hab : rankOrder a b) (hbc : rankOrder b c) :
    rankOrder a c := by
  unfold rankOrder at *
  rcases hab with h1 | ⟨h1, h1p | ⟨h1p, h1r⟩⟩ <;> rcases hbc with h2 | ⟨h2, h2p | ⟨h2p, h2r⟩⟩
  · exact Or.inl (lt_trans h1 h2)
  · exact Or.inl (h2 ▸ h1)
  · exact Or.inl (h2 ▸ h1)
  · exact Or.inl (h1 ▸ h2)
  · exact Or.inr ⟨h1.trans h2, Or.inl (lt_trans h1p h2p)⟩
  · exact Or.inr ⟨h1.trans h2, Or.inl (h2p ▸ h1p)⟩
  · exact Or.inl (h1 ▸ h2)
  · exact Or.inr ⟨h1.trans h2, Or.inl (h1p ▸ h2p)⟩
  · exact Or.inr ⟨h1.trans h2, Or.inr ⟨h1p.trans h2p, le_trans h2r h1r⟩⟩

theorem ranked_park_airbinb_filter_park (rows : List ParkAirbnb) (park : String) :
    ((ranked_park_airbinb rows).filter fun r => decide (r.park_name = park)) =
      (numberFrom 1
        ((rows.filter fun r => decide (r.park_name = park)).insertionSort rankOrder)).map
        fun p => { toParkAirbnb := p.1, ranking := p.2 } := by
  unfold ranked_park_airbinb
  rw [List.filter_map, ← rowNumber_filter_part (fun r : ParkAirbnb => r.park_name) rankOrder rows park]
  rfl

theorem kept_eq (num : Int) (hnum : 0 ≤ num) (rows : List ParkAirbnb) (park : String) :
    ((whereRanking num (ranked_park_airbinb rows)).filter fun r => decide (r.park_name = park)) =
      (numberFrom 1
        (((rows.filter fun r => decide (r.park_name = park)).insertionSort rankOrder).take
          num.toNat)).map
        fun p => { toParkAirbnb := p.1, ranking := p.2 } := by
  unfold whereRanking
  rw [List.filter_comm, ranked_park_airbinb_filter_park, List.filter_map,
    ← numberFrom_filter_lt]
  congr 1
  apply List.filter_congr
  intro p _
  simp only [Function.comp, decide_eq_decide]
  omega

theorem ranked_park_airbinb_ordered (rows : List ParkAirbnb) (r1 r2 : RankedParkAirbnb)
    (h1 : r1 ∈ ranked_park_airbinb rows) (h2 : r2 ∈ ranked_park_airbinb rows)
    (hp : r1.park_name = r2.park_name) (hlt : r1.ranking < r2.ranking) :
    rankOrder r1.toParkAirbnb r2.toParkAirbnb := by
  have m1 : r1 ∈ (ranked_park_airbinb rows).filter fun r => decide (r.park_name = r2.park_name) :=
    List.mem_filter.2 ⟨h1, by simpa using hp⟩
  have m2 : r2 ∈ (ranked_park_airbinb rows).filter fun r => decide (r.park_name = r2.park_name) :=
    List.mem_filter.2 ⟨h2, by simp⟩
  rw [ranked_park_airbinb_filter_park, List.mem_map] at m1 m2
  obtain ⟨p, hp1, rfl⟩ := m1
  obtain ⟨q, hq1, rfl⟩ := m2
  haveI : IsTotal ParkAirbnb rankOrder := ⟨rankOrder_total⟩
  haveI : IsTrans ParkAirbnb rankOrder := ⟨rankOrder_trans⟩
  exact numberFrom_sorted rankOrder _ 1 (List.sorted_insertionSort rankOrder _) p q hp1 hq1 hlt

theorem selectRanked_subset (num : Int) (rows : List RankedParkAirbnb) (r : RankedParkAirbnb)
    (h : r ∈ selectRanked num rows) : r ∈ rows := by
  unfold selectRanked at h
  rw [List.mem_insertionSort] at h
  have := groupRows_subset _ _ _ h
  unfold whereRanking at this
  exact (List.mem_filter.1 this).1


/-- The filter stage alone: for a number `num >= 1` and the candidate rows of
`park_airbnb` supplied in any order, the filter `ranking < num + 1` over the
`ROW_NUMBER` ranking keeps `min(num, n)` rows of a park with `n` candidates,
their ranks are exactly `1, 2, ..., min(num, n)`, and when `num` exceeds `n`
the kept rows are all the candidates of the park. -/
theorem whereRanking_keeps_dense_prefix (num : Int) (hnum : 1 ≤ num)
    (rows supplied : List ParkAirbnb) (hperm : supplied.Perm rows) (park : String) :
    ((whereRanking num (ranked_park_airbinb supplied)).filter
        fun r => decide (r.park_name = park)).length =
      min num.toNat (rows.filter fun r => decide (r.park_name = park)).length ∧
    ((whereRanking num (ranked_park_airbinb supplied)).filter
        fun r => decide (r.park_name = park)).map (fun r => r.ranking) =
      List.range' 1 (min num.toNat (rows.filter fun r => decide (r.park_name = park)).length) ∧
    (((rows.filter fun r => decide (r.park_name = park)).length : Int) < num →
      (((whereRanking num (ranked_park_airbinb supplied)).filter
        fun r => decide (r.park_name = park)).map fun r => r.toParkAirbnb).Perm
        (rows.filter fun r => decide (r.park_name = park))) := by
  have hlen : (supplied.filter fun r => decide (r.park_name = park)).length =
      (rows.filter fun r => decide (r.park_name = park)).length :=
    (hperm.filter _).length_eq
  rw [kept_eq num (by omega) supplied park]
  refine ⟨?_, ?_, ?_⟩
  · rw [List.length_map, numberFrom_length, List.length_take, List.length_insertionSort, hlen]
  · rw [List.map_map]
    have : ((fun r : RankedParkAirbnb => r.ranking) ∘
        fun p : ParkAirbnb × Nat => ({ toParkAirbnb := p.1, ranking := p.2 } : RankedParkAirbnb))
          = Prod.snd := rfl
    rw [this, numberFrom_map_snd, List.length_take, List.length_insertionSort, hlen]
  · intro hn
    rw [List.map_map]
    have : ((fun r : RankedParkAirbnb => r.toParkAirbnb) ∘
        fun p : ParkAirbnb × Nat => ({ toParkAirbnb := p.1, ranking := p.2 } : RankedParkAirbnb))
          = Prod.fst := rfl
    rw [this, numberFrom_map_fst, List.take_of_length_le]
    · exact (List.perm_insertionSort _ _).trans (hperm.filter _)
    · rw [List.length_insertionSort, hlen]
      omega

/-- C3: in the ranking of `recommendedAirbnbForSpecies` and of
`recommendedAirbnbInStateForSpecies`, of two rows of the same park the one
with the smaller rank comes first in the order by ascending
`distance_to_park`, then ascending `price`, then descending
`number_of_reviews`. -/
theorem ranking_follows_three_key_order (dist : ℚ → ℚ → ℚ → ℚ → ℚ) (species state : String)
    (db : Database) (r1 r2 : RankedParkAirbnb)
    (hmem : (r1 ∈ rankedForSpecies dist species db ∧ r2 ∈ rankedForSpecies dist species db) ∨
      (r1 ∈ rankedInStateForSpecies dist species state db ∧
        r2 ∈ rankedInStateForSpecies dist species state db))
    (hpark : r1.park_name = r2.park_name) (hlt : r1.ranking < r2.ranking) :
    r1.distance_to_park < r2.distance_to_park ∨
      (r1.distance_to_park = r2.distance_to_park ∧
        (r1.price < r2.price ∨
          (r1.price = r2.price ∧ r2.number_of_reviews ≤ r1.number_of_reviews))) := by
  rcases hmem with ⟨h1, h2⟩ | ⟨h1, h2⟩
  · exact ranked_park_airbinb_ordered _ r1 r2 h1 h2 hpark hlt
  · exact ranked_park_airbinb_ordered _ r1 r2 h1 h2 hpark hlt


theorem popularJoin_mem (db : Database) (g : ParkSpeciesCount) (h : g ∈ popularJoin db) :
    ∃ S ∈ db.species, ∃ T ∈ db.trail, S.scientific_name = g.scientific_name ∧
      S.park_name = g.park_name ∧ T.park_name = g.park_name ∧ (6.5731 : ℚ) ≤ T.popularity := by
  unfold popularJoin at h
  simp only [List.mem_flatMap, List.mem_filter, List.mem_map, Bool.and_eq_true,
    decide_eq_true_eq] at h
  obtain ⟨C, _, S, ⟨hS, hCS⟩, T, ⟨hT, hST, hpop⟩, rfl⟩ := h
  exact ⟨S, hS, T, hT, hCS.symm, rfl, hST.symm, hpop⟩

theorem popular_park_species_mem (db : Database) (row : PopularParkSpecies)
    (h : row ∈ popular_park_species db) :
    ∃ g ∈ popularJoin db, g.park_name = row.park_name ∧
      g.scientific_name = row.scientific_name ∧ 1 ≤ row.ranks := by
  unfold popular_park_species at h
  rw [List.mem_map] at h
  obtain ⟨p, hp, rfl⟩ := h
  rw [List.mem_insertionSort, rowNumber_mem] at hp
  have h1 := numberFrom_mem _ _ _ hp
  rw [List.mem_insertionSort] at h1
  exact ⟨p.1, groupRows_subset _ _ _ (List.mem_filter.1 h1.1).1, rfl, rfl, h1.2.1⟩

/-- C10: each row returned by `popularSpecies` names a park that has a trail
of popularity at least 6.5731, and a species whose only occurrences are in
parks with no such trail appears in no returned row. -/
theorem popularSpecies_only_popular_parks (num : Int) (db : Database) :
    (∀ row ∈ popularSpecies num db,
      ∃ T ∈ db.trail, T.park_name = row.park_name ∧ (6.5731 : ℚ) ≤ T.popularity) ∧
    (∀ species : String,
      (∀ S ∈ db.species, S.scientific_name = species →
        ∀ T ∈ db.trail, T.park_name = S.park_name → ¬ (6.5731 : ℚ) ≤ T.popularity) →
      ∀ r ∈ popularSpecies num db, r.scientific_name ≠ species) := by
  constructor
  · intro row hrow
    obtain ⟨g, hg, hpark, _, _⟩ := popular_park_species_mem db row (List.mem_filter.1 hrow).1
    obtain ⟨S, _, T, hT, _, _, hTp, hpop⟩ := popularJoin_mem db g hg
    exact ⟨T, hT, hTp.trans hpark, hpop⟩
  · intro species hspecies r hr hne
    obtain ⟨g, hg, _, hsci, _⟩ := popular_park_species_mem db r (List.mem_filter.1 hr).1
    obtain ⟨S, hS, T, hT, hSs, hSp, hTp, hpop⟩ := popularJoin_mem db g hg
    exact hspecies S hS (hSs.trans (hsci.trans hne)) T hT (hTp.trans hSp.symm) hpop

theorem count_map_id {β : Type} (f : β → Nat) (l : List β) (i : Nat) :
    (l.map f).count i = (l.filter fun x => decide (f x = i)).length := by
  induction l with
  | nil => simp
  | cons a t ih =>
    by_cases h : f a = i
    · simp [List.count_cons, List.filter_cons, h, ih]
    · simp [List.count_cons, List.filter_cons, h, ih]

theorem speciesNearbyJoin_count (np : List NearbyPark) (db : Database) (i : Nat) :
    (speciesNearbyJoin np db).count i =
      (db.species.map fun S =>
        (np.filter fun P => decide (S.park_name = P.park_name) && decide (P.id = i)).length).sum := by
  unfold speciesNearbyJoin
  induction db.species with
  | nil => simp
  | cons S t ih =>
    rw [List.flatMap_cons, List.count_append, ih, List.map_cons, List.sum_cons, count_map_id,
      List.filter_filter]
    congr 2
    apply List.filter_congr
    intro P _
    rw [Bool.and_comm]

theorem biodiverse_airbnb_mem (np : List NearbyPark) (num : Nat) (db : Database)
    (g : BiodiverseAirbnb) (h : g ∈ biodiverse_airbnb np num db) :
    g ∈ biodiverseGroups np db := by
  unfold biodiverse_airbnb at h
  exact (List.mem_insertionSort _).1 (List.mem_of_mem_take h)

theorem biodiverse_airbnb_highest (np : List NearbyPark) (num : Nat) (db : Database)
    (kept : BiodiverseAirbnb) (hk : kept ∈ biodiverse_airbnb np num db)
    (g : BiodiverseAirbnb) (hg : g ∈ biodiverseGroups np db)
    (hng : g ∉ biodiverse_airbnb np num db) : g.count ≤ kept.count := by
  unfold biodiverse_airbnb at hk hng
  haveI : IsTotal BiodiverseAirbnb (fun a b => b.count ≤ a.count) := ⟨fun a b => le_total _ _⟩
  haveI : IsTrans BiodiverseAirbnb (fun a b => b.count ≤ a.count) :=
    ⟨fun a b c hab hbc => le_trans hbc hab⟩
  have hs := List.sorted_insertionSort (fun a b : BiodiverseAirbnb => b.count ≤ a.count)
    (biodiverseGroups np db)
  have hg' : g ∈ (biodiverseGroups np db).insertionSort fun a b => b.count ≤ a.count :=
    (List.mem_insertionSort _).2 hg
  rw [← List.take_append_drop num
    ((biodiverseGroups np db).insertionSort fun a b => b.count ≤ a.count)] at hs hg'
  rcases List.mem_append.1 hg' with h | h
  · exact absurd h hng
  · exact (List.pairwise_append.1 hs).2.2 kept hk g h

theorem mostBiodiverseAirbnbs_mem (near : Park → Airbnb → Bool) (state neighbourhood : String)
    (num : Nat) (db : Database) (A : Airbnb) (c : Nat)
    (h : (A, c) ∈ mostBiodiverseAirbnbs near state neighbourhood num db) :
    ({ count := c, id := A.id } : BiodiverseAirbnb) ∈
      biodiverse_airbnb (nearby_park near state neighbourhood db) num db := by
  unfold mostBiodiverseAirbnbs at h
  simp only [List.mem_dedup, List.mem_flatMap, List.mem_map, List.mem_filter,
    decide_eq_true_eq, Prod.mk.injEq] at h
  obtain ⟨A1, hA1, A2, ⟨_, hid⟩, rfl, rfl⟩ := h
  rw [← hid]
  exact hA1


/-- C3 on the example snapshot: `Barn` (rank 1) and `Loft` (rank 2) are at
the same distance from Acadia and `Barn` is the cheaper one. -/
theorem ranking_follows_three_key_order_witness :
    ((barnRanked ∈ rankedForSpecies gridDistance "seal" snapshot ∧
        loftRanked ∈ rankedForSpecies gridDistance "seal" snapshot) ∨
      (barnRanked ∈ rankedInStateForSpecies gridDistance "seal" "ME" snapshot ∧
        loftRanked ∈ rankedInStateForSpecies gridDistance "seal" "ME" snapshot)) ∧
    barnRanked.park_name = loftRanked.park_name ∧ barnRanked.ranking < loftRanked.ranking ∧
    (barnRanked.distance_to_park < loftRanked.distance_to_park ∨
      (barnRanked.distance_to_park = loftRanked.distance_to_park ∧
        (barnRanked.price < loftRanked.price ∨
          (barnRanked.price = loftRanked.price ∧
            loftRanked.number_of_reviews ≤ barnRanked.number_of_reviews)))) :=
  ⟨Or.inl (by decide!), by decide, by decide,
    ranking_follows_three_key_order gridDistance "seal" "ME" snapshot barnRanked loftRanked
      (Or.inl (by decide!)) (by decide) (by decide)⟩

/-- C10 on the example snapshot: the seal of Acadia is returned, and the brown
bear, recorded in Katmai and Denali only, is in no returned row. -/
theorem popularSpecies_only_popular_parks_witness :
    ({ park_name := "Acadia", scientific_name := "Phoca vitulina", ranks := 1 } :
        PopularParkSpecies) ∈ popularSpecies 5 snapshot ∧
    (∀ S ∈ snapshot.species, S.scientific_name = "Ursus arctos" →
      ∀ T ∈ snapshot.trail, T.park_name = S.park_name → ¬ (6.5731 : ℚ) ≤ T.popularity) ∧
    (∃ T ∈ snapshot.trail, T.park_name = "Acadia" ∧ (6.5731 : ℚ) ≤ T.popularity) ∧
    (∀ r ∈ popularSpecies 5 snapshot, r.scientific_name ≠ "Ursus arctos") :=
  ⟨by decide!, by decide!,
    (popularSpecies_only_popular_parks 5 snapshot).1
      { park_name := "Acadia", scientific_name := "Phoca vitulina", ranks := 1 } (by decide!),
    (popularSpecies_only_popular_parks 5 snapshot).2 "Ursus arctos" (by decide!)⟩

/-! ### The rank boundary of the two paths of complex query 3 -/

theorem popularSpeciesOptimized_mem (num : Int) (view : List RankedSpeciesInPopularPark)
    (V : RankedSpeciesInPopularPark) :
    V ∈ popularSpeciesOptimized num view ↔ V ∈ view ∧ (V.ranking : Int) < num := by
  unfold popularSpeciesOptimized
  rw [List.mem_insertionSort, List.mem_filter, decide_eq_true_eq]

theorem popularSpecies_mem (num : Int) (db : Database) (P : PopularParkSpecies) :
    P ∈ popularSpecies num db ↔ P ∈ popular_park_species db ∧ (P.ranks : Int) ≤ num := by
  unfold popularSpecies
  rw [List.mem_filter, decide_eq_true_eq]

/-- A row of rank exactly `num` is returned by `popularSpecies`, and its
row in the view is not returned by `popularSpeciesOptimized`. -/
theorem popularSpeciesOptimized_misses_rank_num (num : Int) (db : Database)
    (P : PopularParkSpecies) (hP : P ∈ popular_park_species db) (hr : (P.ranks : Int) = num) :
    P ∈ popularSpecies num db ∧
      asViewRow P ∉ popularSpeciesOptimized num ((popular_park_species db).map asViewRow) := by
  refine ⟨(popularSpecies_mem num db P).2 ⟨hP, by omega⟩, ?_⟩
  intro h
  have := ((popularSpeciesOptimized_mem num _ _).1 h).2
  simp only [asViewRow] at this
  omega

/-- C1: on the example snapshot with `num = 1`, where the view holds the rows
of `popular_park_species`, `popularSpecies` returns the seal of Acadia with
rank 1 and `popularSpeciesOptimized` returns no row. -/
theorem popularSpeciesOptimized_differs_at_one :
    (popular_park_species snapshot).map asViewRow =
        [{ park_name := "Acadia", scientific_name := "Phoca vitulina", ranking := 1 }] ∧
      popularSpecies 1 snapshot =
        [{ park_name := "Acadia", scientific_name := "Phoca vitulina", ranks := 1 }] ∧
      popularSpeciesOptimized 1 ((popular_park_species snapshot).map asViewRow) = [] := by
  decide!

/-! ### The review threshold of the two variants of complex query 1 -/

theorem park_airbnb_mem (dist : ℚ → ℚ → ℚ → ℚ → ℚ) (S : List ParksRow) (A : List Airbnb)
    (r : ParkAirbnb) (h : r ∈ park_airbnb dist S A) :
    ∃ s ∈ S, ∃ a ∈ A, r.park_name = s.park_name ∧ r.name = a.name ∧
      r.number_of_reviews = a.number_of_reviews ∧ r.state = a.state := by
  unfold park_airbnb at h
  rw [List.mem_map] at h
  obtain ⟨p, hp, rfl⟩ := h
  have hp' := groupRows_subset _ _ _ hp
  simp only [List.mem_flatMap, List.mem_map] at hp'
  obtain ⟨s, hs, a, ha, rfl⟩ := hp'
  exact ⟨s, hs, a, ha, rfl, rfl, rfl, rfl⟩

theorem ranked_park_airbinb_mem (rows : List ParkAirbnb) (r : RankedParkAirbnb)
    (h : r ∈ ranked_park_airbinb rows) : r.toParkAirbnb ∈ rows ∧ 1 ≤ r.ranking := by
  unfold ranked_park_airbinb at h
  rw [List.mem_map] at h
  obtain ⟨p, hp, rfl⟩ := h
  rw [rowNumber_mem] at hp
  have h1 := numberFrom_mem _ _ _ hp
  rw [List.mem_insertionSort] at h1
  exact ⟨(List.mem_filter.1 h1.1).1, h1.2.1⟩

/-- The sibling `recommendedAirbnbForSpecies` returns listings with more than
150 reviews only. -/
theorem recommendedAirbnbForSpecies_reviews (dist : ℚ → ℚ → ℚ → ℚ → ℚ) (species : String)
    (num : Int) (db : Database) (r : RankedParkAirbnb)
    (h : r ∈ recommendedAirbnbForSpecies dist species num db) : 150 < r.number_of_reviews := by
  unfold recommendedAirbnbForSpecies at h
  have h1 := selectRanked_subset _ _ _ h
  unfold rankedForSpecies at h1
  obtain ⟨_, _, a, ha, _, _, hrev, _⟩ := park_airbnb_mem _ _ _ _ (ranked_park_airbinb_mem _ _ h1).1
  rw [hrev]
  simpa using (List.mem_filter.1 ha).2

/-- C9: on the example snapshot, `recommendedAirbnbInStateForSpecies` for
`seal`, `num = 3` and the state `ME` returns the listing `Cabin`, which has no
review, with rank 1. -/
theorem recommendedAirbnbInStateForSpecies_returns_unreviewed :
    (recommendedAirbnbInStateForSpecies gridDistance "seal" 3 "ME" snapshot).map
        (fun r => (r.name, r.number_of_reviews, r.ranking)) =
      [("Cabin", 0, 1), ("Barn", 180, 2), ("Loft", 300, 3)] := by
  decide!

/-! ### The count of complex query 2 -/

/-- C8, as stated, fails: on the example snapshot the listing `lodge` is
paired with Katmai and Denali, the brown bear is recorded in both, and the
`count` of the listing is 2, not the 1 distinct species of these parks. -/
theorem mostBiodiverseAirbnbs_counts_species_twice :
    mostBiodiverseAirbnbs (fun _ _ => true) "AK" "Downtown" 10 snapshot = [(lodge, 2)] ∧
      distinctSpeciesCount (nearby_park (fun _ _ => true) "AK" "Downtown" snapshot) snapshot
        lodge.id = 1 := by
  decide!

/-- C8, amended: the `count` of a returned listing is the number of `Species`
rows in the parks paired with it, a row counted once for each row of
`nearby_park` that pairs its park with the listing; no group left out by the
`LIMIT` has a higher count, and at most `num` listings are returned. -/
theorem mostBiodiverseAirbnbs_count (near : Park → Airbnb → Bool)
    (state neighbourhood : String) (num : Nat) (db : Database) (A : Airbnb) (c : Nat)
    (h : (A, c) ∈ mostBiodiverseAirbnbs near state neighbourhood num db) :
    c = (db.species.map fun S =>
          ((nearby_park near state neighbourhood db).filter fun P =>
            decide (S.park_name = P.park_name) && decide (P.id = A.id)).length).sum ∧
      (∀ g ∈ biodiverseGroups (nearby_park near state neighbourhood db) db,
        g ∉ biodiverse_airbnb (nearby_park near state neighbourhood db) num db →
          g.count ≤ c) ∧
      ((mostBiodiverseAirbnbs near state neighbourhood num db).map
        fun r => r.1.id).dedup.length ≤ num := by
  have hk := mostBiodiverseAirbnbs_mem near state neighbourhood num db A c h
  refine ⟨?_, ?_, ?_⟩
  · have hg := biodiverse_airbnb_mem _ _ _ _ hk
    unfold biodiverseGroups at hg
    rw [List.mem_map] at hg
    obtain ⟨i, _, hi⟩ := hg
    simp only [BiodiverseAirbnb.mk.injEq] at hi
    rw [← hi.1, hi.2, speciesNearbyJoin_count]
  · intro g hg hng
    exact biodiverse_airbnb_highest _ _ _ _ hk g hg hng
  · have hsub : ((mostBiodiverseAirbnbs near state neighbourhood num db).map
        fun r => r.1.id).dedup ⊆
        (biodiverse_airbnb (nearby_park near state neighbourhood db) num db).map
          fun g => g.id := by
      intro i hi
      rw [List.mem_dedup, List.mem_map] at hi
      obtain ⟨⟨A', c'⟩, hr, rfl⟩ := hi
      exact List.mem_map.2
        ⟨_, mostBiodiverseAirbnbs_mem near state neighbourhood num db A' c' hr, rfl⟩
    have hle := (List.subperm_of_subset (List.nodup_dedup _) hsub).length_le
    rw [List.length_map] at hle
    refine le_trans hle ?_
    unfold biodiverse_airbnb
    exact List.length_take_le _ _

/-- C8, amended, on the example snapshot: the listing `lodge` is returned with
the count 2. -/
theorem mostBiodiverseAirbnbs_count_witness :
    (lodge, 2) ∈ mostBiodiverseAirbnbs (fun _ _ => true) "AK" "Downtown" 10 snapshot ∧
    (2 = (snapshot.species.map fun S =>
          ((nearby_park (fun _ _ => true) "AK" "Downtown" snapshot).filter fun P =>
            decide (S.park_name = P.park_name) && decide (P.id = lodge.id)).length).sum ∧
      (∀ g ∈ biodiverseGroups (nearby_park (fun _ _ => true) "AK" "Downtown" snapshot) snapshot,
        g ∉ biodiverse_airbnb (nearby_park (fun _ _ => true) "AK" "Downtown" snapshot) 10
            snapshot →
          g.count ≤ 2) ∧
      ((mostBiodiverseAirbnbs (fun _ _ => true) "AK" "Downtown" 10 snapshot).map
        fun r => r.1.id).dedup.length ≤ 10) :=
  ⟨by decide!,
    mostBiodiverseAirbnbs_count (fun _ _ => true) "AK" "Downtown" 10 snapshot lodge 2
      (by decide!)⟩

end Eval

namespace Geo

theorem RADIANS_zero : RADIANS 0 = 0 := by simp [RADIANS]

theorem haversine_symm (lat1 lon1 lat2 lon2 : ℝ) :
    haversine lat1 lon1 lat2 lon2 = haversine lat2 lon2 lat1 lon1 := by
  unfold haversine
  have e1 : (RADIANS lat1 - RADIANS lat2) / 2 = -((RADIANS lat2 - RADIANS lat1) / 2) := by ring
  have e2 : (RADIANS lon1 - RADIANS lon2) / 2 = -((RADIANS lon2 - RADIANS lon1) / 2) := by ring
  rw [e1, e2, Real.sin_neg, Real.sin_neg, neg_sq, neg_sq]
  ring

theorem haversine_self (lat lon : ℝ) : haversine lat lon lat lon = 0 := by
  simp [haversine]

theorem distance_to_park_nonneg (lat1 lon1 lat2 lon2 : ℝ) :
    0 ≤ distance_to_park lat1 lon1 lat2 lon2 := by
  unfold distance_to_park
  have h := Real.arcsin_nonneg.2 (Real.sqrt_nonneg (haversine lat1 lon1 lat2 lon2))
  positivity

theorem distance_to_park_eq_zero_iff (lat1 lon1 lat2 lon2 : ℝ) :
    distance_to_park lat1 lon1 lat2 lon2 = 0 ↔ haversine lat1 lon1 lat2 lon2 ≤ 0 := by
  unfold distance_to_park
  constructor
  · intro h
    have h1 : Real.arcsin (Real.sqrt (haversine lat1 lon1 lat2 lon2)) = 0 := by
      have h3 : (3958.8 : ℝ) ≠ 0 := by norm_num
      have := (mul_eq_zero.1 h).resolve_left h3
      exact (mul_eq_zero.1 this).resolve_left (by norm_num)
    exact Real.sqrt_eq_zero'.1 (Real.arcsin_eq_zero_iff.1 h1)
  · intro h
    rw [Real.sqrt_eq_zero'.2 h, Real.arcsin_zero]
    ring

/-- C4: the distance expression, read over the real numbers, is symmetric in
its two points, is non-negative for every pair of coordinates, and is 0 when
both points are the same. -/
theorem distance_to_park_symm_nonneg_self (lat1 lon1 lat2 lon2 : ℝ) :
    distance_to_park lat1 lon1 lat2 lon2 = distance_to_park lat2 lon2 lat1 lon1 ∧
      0 ≤ distance_to_park lat1 lon1 lat2 lon2 ∧
      distance_to_park lat1 lon1 lat1 lon1 = 0 := by
  refine ⟨?_, distance_to_park_nonneg lat1 lon1 lat2 lon2, ?_⟩
  · unfold distance_to_park
    rw [haversine_symm]
  · rw [distance_to_park_eq_zero_iff, haversine_self]

/-- C7: at the park `(0, 0)`, the listing `(0, 180)` and `distance = 100`
the `ON` condition of `nearby_park` holds, so the pair is kept, although the
great-circle distance of the two points is not below 100 miles (it is
`3958.8 * π`). -/
theorem nearby_park_on_keeps_distant_pair :
    nearby_park_on 0 0 0 180 100 ∧ ¬ distance_to_park 0 0 0 180 < 100 ∧
      distance_to_park 0 0 0 180 = 3958.8 * Real.pi := by
  have e : (RADIANS 0 - RADIANS 180) / 2 = -(Real.pi / 2) := by
    unfold RADIANS; ring
  have hn : nearbyArg 0 0 0 180 = 1 := by
    unfold nearbyArg
    rw [e, Real.sin_neg, Real.sin_pi_div_two]
    simp [RADIANS_zero]
  have hh : haversine 0 0 0 180 = 1 := by
    unfold haversine
    rw [e, Real.sin_neg, Real.sin_pi_div_two]
    simp [RADIANS_zero]
  have hd : distance_to_park 0 0 0 180 = 3958.8 * Real.pi := by
    unfold distance_to_park
    rw [hh, Real.sqrt_one, Real.arcsin_one]
    ring
  refine ⟨?_, ?_, hd⟩
  · unfold nearby_park_on
    rw [hn, Real.sqrt_one, Real.arcsin_one]
    refine ⟨le_refl _, ?_⟩
    linarith [Real.pi_le_four]
  · rw [hd]
    linarith [Real.pi_gt_three]

end Geo


/-- C6, as stated, fails: the call `popularSpecies(0)` returns the statement
with `0` in its rank filter; it does not fail with `InvalidArgument`. -/
theorem popularSpecies_zero_returns_statement :
    queries.call (queries.popularSpecies (JsValue.number 0)) =
        Completion.normal "WITH COUNT AS (
SELECT scientific_name, COUNT(DISTINCT park_name) AS species_count
FROM Species
GROUP BY scientific_name),
popular_park_species AS (
SELECT S.park_name,C.scientific_name, ROW_NUMBER() over (PARTITION BY S.park_name ORDER BY C.species_count DESC) AS ranks
FROM COUNT C JOIN Species S ON C.scientific_name=S.scientific_name JOIN Trail T on S.park_name = T.park_name
WHERE T.popularity >= 6.5731
GROUP BY S.park_name, C.scientific_name
ORDER BY S.park_name, C.species_count DESC)
SELECT *
FROM popular_park_species P
WHERE P.ranks <= 0;" ∧
      queries.call (queries.popularSpecies (JsValue.number 0)) ≠
        Completion.throw QueryError.InvalidArgument := by
  refine ⟨congrArg Completion.normal ?_, ?_⟩
  · decide!
  · simp [queries.call]

namespace Eval

theorem whereRanking_nonpositive (n : Int) (hn : n ≤ 0) (rows : List ParkAirbnb) :
    whereRanking n (ranked_park_airbinb rows) = [] := by
  unfold whereRanking
  rw [List.filter_eq_nil_iff]
  intro r hr
  have := (ranked_park_airbinb_mem rows r hr).2
  simp only [decide_eq_true_eq]
  omega

theorem selectRanked_nonpositive (n : Int) (hn : n ≤ 0) (rows : List ParkAirbnb) :
    selectRanked n (ranked_park_airbinb rows) = [] := by
  unfold selectRanked
  rw [whereRanking_nonpositive n hn rows]
  rfl

theorem popularSpecies_nonpositive (n : Int) (hn : n ≤ 0) (db : Database) :
    popularSpecies n db = [] := by
  unfold popularSpecies
  rw [List.filter_eq_nil_iff]
  intro P hP
  obtain ⟨_, _, _, _, h1⟩ := popular_park_species_mem db P hP
  simp only [decide_eq_true_eq]
  omega

theorem popularSpeciesOptimized_nonpositive (n : Int) (hn : n ≤ 0)
    (view : List RankedSpeciesInPopularPark) : popularSpeciesOptimized n view = [] := by
  unfold popularSpeciesOptimized
  have : (view.filter fun V => decide ((V.ranking : Int) < n)) = [] := by
    rw [List.filter_eq_nil_iff]
    intro V _
    simp only [decide_eq_true_eq]
    omega
  rw [this]
  rfl

end Eval

/-- C6, amended: every entry point that takes `num` returns its statement for
every `num` and throws for none, `num = 0` and `num < 0` included; the
statements of `recommendedAirbnbForSpecies`,
`recommendedAirbnbInStateForSpecies`, `popularSpecies` and
`popularSpeciesOptimized` built for a number `n <= 0` select no row. -/
theorem entry_points_return_for_every_num (species state neighbourhood distance num : JsValue)
    (n : Int) (hn : n ≤ 0) (dist : ℚ → ℚ → ℚ → ℚ → ℚ) (sp st : String) (db : Eval.Database)
    (view : List Eval.RankedSpeciesInPopularPark) :
    (queries.call (queries.recommendedAirbnbForSpecies species num) =
        Completion.normal (queries.recommendedAirbnbForSpecies species num) ∧
      queries.call (queries.recommendedAirbnbForSpeciesOptimized species num) =
        Completion.normal (queries.recommendedAirbnbForSpeciesOptimized species num) ∧
      queries.call (queries.recommendedAirbnbInStateForSpecies species num state) =
        Completion.normal (queries.recommendedAirbnbInStateForSpecies species num state) ∧
      queries.call (queries.recommendedAirbnbInStateForSpeciesOptimized species num state) =
        Completion.normal
          (queries.recommendedAirbnbInStateForSpeciesOptimized species num state) ∧
      queries.call (queries.mostBiodiverseAirbnbs state neighbourhood distance num) =
        Completion.normal (queries.mostBiodiverseAirbnbs state neighbourhood distance num) ∧
      queries.call (queries.mostBiodiverseAirbnbsOptimized state neighbourhood distance num) =
        Completion.normal
          (queries.mostBiodiverseAirbnbsOptimized state neighbourhood distance num) ∧
      queries.call (queries.popularSpecies num) =
        Completion.normal (queries.popularSpecies num) ∧
      queries.call (queries.popularSpeciesOptimized num) =
        Completion.normal (queries.popularSpeciesOptimized num) ∧
      queries.call (queries.speciesForPhotographers num) =
        Completion.normal (queries.speciesForPhotographers num) ∧
      queries.call (queries.speciesForPhotographersOptimized num) =
        Completion.normal (queries.speciesForPhotographersOptimized num)) ∧
    (Eval.recommendedAirbnbForSpecies dist sp n db = [] ∧
      Eval.recommendedAirbnbInStateForSpecies dist sp n st db = [] ∧
      Eval.popularSpecies n db = [] ∧
      Eval.popularSpeciesOptimized n view = []) := by
  refine ⟨⟨rfl, rfl, rfl, rfl, rfl, rfl, rfl, rfl, rfl, rfl⟩, ?_, ?_, ?_, ?_⟩
  · exact Eval.selectRanked_nonpositive n hn _
  · exact Eval.selectRanked_nonpositive n hn _
  · exact Eval.popularSpecies_nonpositive n hn db
  · exact Eval.popularSpeciesOptimized_nonpositive n hn view

/-- C6, amended, at `num = 0` on the example snapshot. -/
theorem entry_points_return_for_every_num_witness :
    (0 : Int) ≤ 0 ∧
    ((queries.call (queries.recommendedAirbnbForSpecies (JsValue.string "seal")
          (JsValue.number 0)) =
        Completion.normal (queries.recommendedAirbnbForSpecies (JsValue.string "seal")
          (JsValue.number 0)) ∧
      queries.call (queries.recommendedAirbnbForSpeciesOptimized (JsValue.string "seal")
          (JsValue.number 0)) =
        Completion.normal (queries.recommendedAirbnbForSpeciesOptimized (JsValue.string "seal")
          (JsValue.number 0)) ∧
      queries.call (queries.recommendedAirbnbInStateForSpecies (JsValue.string "seal")
          (JsValue.number 0) (JsValue.string "ME")) =
        Completion.normal (queries.recommendedAirbnbInStateForSpecies (JsValue.string "seal")
          (JsValue.number 0) (JsValue.string "ME")) ∧
      queries.call (queries.recommendedAirbnbInStateForSpeciesOptimized (JsValue.string "seal")
          (JsValue.number 0) (JsValue.string "ME")) =
        Completion.normal
          (queries.recommendedAirbnbInStateForSpeciesOptimized (JsValue.string "seal")
            (JsValue.number 0) (JsValue.string "ME")) ∧
      queries.call (queries.mostBiodiverseAirbnbs (JsValue.string "ME")
          (JsValue.string "Village") (JsValue.number 100) (JsValue.number 0)) =
        Completion.normal (queries.mostBiodiverseAirbnbs (JsValue.string "ME")
          (JsValue.string "Village") (JsValue.number 100) (JsValue.number 0)) ∧
      queries.call (queries.mostBiodiverseAirbnbsOptimized (JsValue.string "ME")
          (JsValue.string "Village") (JsValue.number 100) (JsValue.number 0)) =
        Completion.normal
          (queries.mostBiodiverseAirbnbsOptimized (JsValue.string "ME")
            (JsValue.string "Village") (JsValue.number 100) (JsValue.number 0)) ∧
      queries.call (queries.popularSpecies (JsValue.number 0)) =
        Completion.normal (queries.popularSpecies (JsValue.number 0)) ∧
      queries.call (queries.popularSpeciesOptimized (JsValue.number 0)) =
        Completion.normal (queries.popularSpeciesOptimized (JsValue.number 0)) ∧
      queries.call (queries.speciesForPhotographers (JsValue.number 0)) =
        Completion.normal (queries.speciesForPhotographers (JsValue.number 0)) ∧
      queries.call (queries.speciesForPhotographersOptimized (JsValue.number 0)) =
        Completion.normal (queries.speciesForPhotographersOptimized (JsValue.number 0))) ∧
    (Eval.recommendedAirbnbForSpecies Eval.gridDistance "seal" 0 Eval.snapshot = [] ∧
      Eval.recommendedAirbnbInStateForSpecies Eval.gridDistance "seal" 0 "ME" Eval.snapshot =
        [] ∧
      Eval.popularSpecies 0 Eval.snapshot = [] ∧
      Eval.popularSpeciesOptimized 0
        ((Eval.popular_park_species Eval.snapshot).map Eval.asViewRow) = [])) :=
  ⟨le_refl 0,
    entry_points_return_for_every_num (JsValue.string "seal") (JsValue.string "ME")
      (JsValue.string "Village") (JsValue.number 100) (JsValue.number 0) 0 (le_refl 0)
      Eval.gridDistance "seal" "ME" Eval.snapshot
      ((Eval.popular_park_species Eval.snapshot).map Eval.asViewRow)⟩

/-! ### The sort direction of the simple queries -/

/-- C11: for `sortBy = 'name'`, the value the docstrings give for the
alphabetical order, `allParks` and `searches` build `ORDER BY name DESC`; the
direction is `ASC` for `'park_name'` only, and `DESC` for `'area'` and
`'species_count'`. -/
theorem sortBy_name_orders_descending :
    queries.allParks (JsValue.string "name") = "SELECT p.park_code, p.park_name, p.state, p.acres, p.latitude, p.longitude, COUNT(s.species_id) AS species_count
FROM Park p
         JOIN Species s ON p.park_name = s.park_name
GROUP BY p.park_name
ORDER BY name DESC;" ∧
    queries.lastChars 19
        (queries.searches (JsValue.string "state") (JsValue.string "name")
          (JsValue.string "CA")) = "ORDER BY name DESC;" ∧
    queries.lastChars 19 (queries.allParks (JsValue.string "area")) = "ORDER BY area DESC;" ∧
    queries.lastChars 19
        (queries.searches (JsValue.string "state") (JsValue.string "area")
          (JsValue.string "CA")) = "ORDER BY area DESC;" ∧
    queries.lastChars 28 (queries.allParks (JsValue.string "species_count")) =
      "ORDER BY species_count DESC;" ∧
    queries.lastChars 28
        (queries.searches (JsValue.string "state") (JsValue.string "species_count")
          (JsValue.string "CA")) = "ORDER BY species_count DESC;" ∧
    queries.lastChars 23 (queries.allParks (JsValue.string "park_name")) =
      "ORDER BY park_name ASC;" ∧
    queries.lastChars 23
        (queries.searches (JsValue.string "state") (JsValue.string "park_name")
          (JsValue.string "CA")) = "ORDER BY park_name ASC;" := by
  refine ⟨?_, ?_, ?_, ?_, ?_, ?_, ?_, ?_⟩ <;> decide!

namespace Eval

/-! ### Ties in the order of complex query 4 -/

theorem viewCountOrder_strict (l : List SpeciesNearTopAirbnb)
    (hs : l.Sorted viewCountOrder) (hid : (l.map fun r => r.species_id).Nodup) :
    l.Sorted fun a b =>
      b.occurrence_count < a.occurrence_count ∨
        (a.occurrence_count = b.occurrence_count ∧ a.species_id < b.species_id) := by
  have hne : l.Pairwise fun a b => a.species_id ≠ b.species_id := List.pairwise_map.1 hid
  refine (List.Pairwise.and hs hne).imp ?_
  rintro a b ⟨h, hab⟩
  unfold viewCountOrder at h
  rcases h with h | ⟨h1, h2⟩
  · exact Or.inl h
  · exact Or.inr ⟨h1, lt_of_le_of_ne h2 hab⟩

/-- The statement of `speciesForPhotographersOptimized` has one result over a
view with one row per `species_id`. -/
theorem speciesForPhotographersOptimized_unique (view : List SpeciesNearTopAirbnb) (num : Nat)
    (out1 out2 : List SpeciesNearTopAirbnb)
    (hid : (view.map fun r => r.species_id).Nodup)
    (h1 : speciesForPhotographersOptimized view num out1)
    (h2 : speciesForPhotographersOptimized view num out2) : out1 = out2 := by
  obtain ⟨a1, hp1, hs1, rfl⟩ := h1
  obtain ⟨a2, hp2, hs2, rfl⟩ := h2
  have n1 : (a1.map fun r => r.species_id).Nodup := ((hp1.map _).nodup_iff).2 hid
  have n2 : (a2.map fun r => r.species_id).Nodup := ((hp2.map _).nodup_iff).2 hid
  haveI : IsAntisymm SpeciesNearTopAirbnb fun a b =>
      b.occurrence_count < a.occurrence_count ∨
        (a.occurrence_count = b.occurrence_count ∧ a.species_id < b.species_id) :=
    ⟨fun a b hab hba => by
      exfalso
      rcases hab with h | ⟨h, h'⟩ <;> rcases hba with g | ⟨g, g'⟩ <;> omega⟩
  rw [List.eq_of_perm_of_sorted (hp1.trans hp2.symm) (viewCountOrder_strict a1 hs1 n1)
    (viewCountOrder_strict a2 hs2 n2)]

/-- C12: on the snapshot `katmaiCamp`, whose listing is at distance 0 from
the park, the two species have the same `occurrence_count`, and with `num =
1` both the row of the bear and the row of the salmon satisfy `ORDER BY
sc.occurrence_count DESC LIMIT 1`: the result is not determined. -/
theorem speciesForPhotographers_tie_has_two_results :
    Geo.distance_to_park 58 (-155) 58 (-155) ≤ 100 ∧
    speciesForPhotographersRows (fun _ _ => true) katmaiCamp = [bearRow, salmonRow] ∧
    speciesForPhotographers (fun _ _ => true) 1 katmaiCamp [bearRow] ∧
    speciesForPhotographers (fun _ _ => true) 1 katmaiCamp [salmonRow] ∧
    [bearRow] ≠ [salmonRow] := by
  have hrows : speciesForPhotographersRows (fun _ _ => true) katmaiCamp =
      [bearRow, salmonRow] := by decide!
  refine ⟨?_, hrows, ?_, ?_, by decide⟩
  · rw [(Geo.distance_to_park_eq_zero_iff 58 (-155) 58 (-155)).2
      (le_of_eq (Geo.haversine_self 58 (-155)))]
    norm_num
  · unfold speciesForPhotographers
    rw [hrows]
    exact ⟨[bearRow, salmonRow], List.Perm.refl _, by decide, rfl⟩
  · unfold speciesForPhotographers
    rw [hrows]
    exact ⟨[salmonRow, bearRow], List.Perm.swap _ _ _, by decide, rfl⟩

end Eval

/-! ### A `num` that arrives as a string -/

/-- C13: in the interpolated `num + 1` a string `num` is concatenated with `1`.  For
`num = '1'` the four builders return the statement they return for the
number 10, whose rank filter is `ranking < 11`, not the statement for the
number 1; that filter keeps all three candidates of Acadia on the example
snapshot. -/
theorem string_num_is_concatenated :
    (∀ s : String,
      JsValue.toStr (JsValue.plus (JsValue.string s) (JsValue.number 1)) = s ++ "1") ∧
    (∀ species state : JsValue,
      queries.recommendedAirbnbForSpecies species (JsValue.string "1") =
        queries.recommendedAirbnbForSpecies species (JsValue.number 10) ∧
      queries.recommendedAirbnbForSpeciesOptimized species (JsValue.string "1") =
        queries.recommendedAirbnbForSpeciesOptimized species (JsValue.number 10) ∧
      queries.recommendedAirbnbInStateForSpecies species (JsValue.string "1") state =
        queries.recommendedAirbnbInStateForSpecies species (JsValue.number 10) state ∧
      queries.recommendedAirbnbInStateForSpeciesOptimized species (JsValue.string "1") state =
        queries.recommendedAirbnbInStateForSpeciesOptimized species (JsValue.number 10)
          state) ∧
    queries.recommendedAirbnbForSpeciesOptimized (JsValue.string "seal") (JsValue.string "1") =
      "SELECT P.*
FROM (SELECT name,
             distance_to_park,
             park_name,
             price,
             number_of_reviews,
             city,
             state,
             host_name,
             room_type,
             minimum_nights,
             availability_365,
             ranking
      FROM materialized_view_ranked_airbnb_near_park
      WHERE ranking < 11) P
WHERE park_name IN (SELECT DISTINCT park_name
                    FROM Species
                    WHERE common_names LIKE '%seal%')
ORDER BY distance_to_park, park_name, ranking;" ∧
    queries.recommendedAirbnbForSpeciesOptimized (JsValue.string "seal") (JsValue.string "1") ≠
      queries.recommendedAirbnbForSpeciesOptimized (JsValue.string "seal") (JsValue.number 1) ∧
    ((Eval.whereRanking 10 (Eval.ranked_park_airbinb Eval.sealRows)).filter
      fun r => decide (r.park_name = "Acadia")).length = 3 := by
  have hmid : JsValue.toStr (JsValue.plus (JsValue.string "1") (JsValue.number 1)) =
      JsValue.toStr (JsValue.plus (JsValue.number 10) (JsValue.number 1)) := by decide
  refine ⟨fun s => rfl, fun species state => ⟨?_, ?_, ?_, ?_⟩, ?_, ?_, ?_⟩
  · unfold queries.recommendedAirbnbForSpecies; rw [hmid]
  · unfold queries.recommendedAirbnbForSpeciesOptimized; rw [hmid]
  · unfold queries.recommendedAirbnbInStateForSpecies; rw [hmid]
  · unfold queries.recommendedAirbnbInStateForSpeciesOptimized; rw [hmid]
  · decide!
  · decide!
  · decide!

namespace Eval

/-! ### The statement of complex query 1 after its final `GROUP BY` -/

theorem groupRows_map_key_aux {α κ : Type} [DecidableEq κ] (key : α → κ) (rows : List α)
    (ks : List κ) (hks : ∀ k ∈ ks, k ∈ rows.map key) :
    (ks.filterMap fun k => rows.find? fun r => decide (key r = k)).map key = ks := by
  induction ks with
  | nil => rfl
  | cons k t ih =>
    have hk : k ∈ rows.map key := hks k (List.mem_cons_self _ _)
    have ht : ∀ j ∈ t, j ∈ rows.map key := fun j hj => hks j (List.mem_cons_of_mem _ hj)
    cases hf : rows.find? fun r => decide (key r = k) with
    | none =>
      exfalso
      obtain ⟨r, hr, hrk⟩ := List.mem_map.1 hk
      have := List.find?_eq_none.1 hf r hr
      simp [hrk] at this
    | some r =>
      have hr : key r = k := by simpa using List.find?_some hf
      have hstep : ((k :: t).filterMap fun k => rows.find? fun r => decide (key r = k)) =
          r :: t.filterMap fun k => rows.find? fun r => decide (key r = k) := by
        simp only [List.filterMap_cons, hf]
      rw [hstep, List.map_cons, ih ht, hr]

theorem groupRows_map_key {α κ : Type} [DecidableEq κ] (key : α → κ) (rows : List α) :
    (groupRows key rows).map key = (rows.map key).dedup :=
  groupRows_map_key_aux key rows _ fun _ hk => List.mem_dedup.1 hk

theorem groupRows_nodup {α κ : Type} [DecidableEq κ] (key : α → κ) (rows : List α) :
    (groupRows key rows).Nodup := by
  apply List.Nodup.of_map key
  rw [groupRows_map_key]
  exact List.nodup_dedup _

theorem groupRows_mem_of_unique {α κ : Type} [DecidableEq κ] (key : α → κ) (rows : List α)
    (r : α) (hr : r ∈ rows) (huniq : ∀ r' ∈ rows, key r' = key r → r' = r) :
    r ∈ groupRows key rows := by
  unfold groupRows
  rw [List.mem_filterMap]
  refine ⟨key r, List.mem_dedup.2 (List.mem_map.2 ⟨r, hr, rfl⟩), ?_⟩
  cases hf : rows.find? fun x => decide (key x = key r) with
  | none =>
    exfalso
    have := List.find?_eq_none.1 hf r hr
    simp at this
  | some r' =>
    have h1 : key r' = key r := by simpa using List.find?_some hf
    rw [huniq r' (List.mem_of_find?_eq_some hf) h1]

/-- When the candidates of a park are pairwise distinct, the final `GROUP BY`
and `ORDER BY` of the statement return, for that park, the rows the rank
filter keeps, in some order. -/
theorem selectRanked_park_perm (num : Int) (hnum : 0 ≤ num) (supplied : List ParkAirbnb)
    (park : String)
    (hd : (supplied.filter fun r => decide (r.park_name = park)).Nodup) :
    ((selectRanked num (ranked_park_airbinb supplied)).filter
        fun r => decide (r.park_name = park)).Perm
      ((whereRanking num (ranked_park_airbinb supplied)).filter
        fun r => decide (r.park_name = park)) := by
  have hkeys : (((whereRanking num (ranked_park_airbinb supplied)).filter
      fun r => decide (r.park_name = park)).map fun r => r.toParkAirbnb).Nodup := by
    rw [kept_eq num hnum supplied park, List.map_map]
    have : ((fun r : RankedParkAirbnb => r.toParkAirbnb) ∘
        fun p : ParkAirbnb × Nat => ({ toParkAirbnb := p.1, ranking := p.2 } : RankedParkAirbnb))
          = Prod.fst := rfl
    rw [this, numberFrom_map_fst]
    exact (((List.perm_insertionSort rankOrder _).nodup_iff).2 hd).sublist (List.take_sublist _ _)
  have hK : ((whereRanking num (ranked_park_airbinb supplied)).filter
      fun r => decide (r.park_name = park)).Nodup := List.Nodup.of_map _ hkeys
  have hR : ((selectRanked num (ranked_park_airbinb supplied)).filter
      fun r => decide (r.park_name = park)).Nodup := by
    apply List.Nodup.filter
    unfold selectRanked
    exact ((List.perm_insertionSort _ _).nodup_iff).2 (groupRows_nodup _ _)
  refine (List.perm_ext_iff_of_nodup hR hK).2 fun r => ?_
  simp only [List.mem_filter]
  constructor
  · rintro ⟨hr, hp⟩
    unfold selectRanked at hr
    exact ⟨groupRows_subset _ _ _ ((List.mem_insertionSort _).1 hr), hp⟩
  · rintro ⟨hr, hp⟩
    refine ⟨?_, hp⟩
    unfold selectRanked
    rw [List.mem_insertionSort]
    apply groupRows_mem_of_unique _ _ r hr
    intro r' hr' hkey
    have hp' : decide (r'.park_name = park) = true := by
      have e : r'.park_name = r.park_name := congrArg ParkAirbnb.park_name hkey
      simpa [e] using hp
    exact List.inj_on_of_nodup_map hkeys (List.mem_filter.2 ⟨hr', hp'⟩)
      (List.mem_filter.2 ⟨hr, hp⟩) hkey

/-- C2, as stated, fails on what the statement returns: on `twinAcadia` the
park has `n = 2` candidates and `num = 5`; the filter `ranking < 6` keeps both,
with ranks 1 and 2, and the final `GROUP BY` of the statement, which leaves
`ranking` out, merges them, so one row is returned, not all 2 candidates. -/
theorem recommendedAirbnbForSpecies_merges_twins :
    ((candidatesForSpecies gridDistance "seal" twinAcadia).filter
        fun r => decide (r.park_name = "Acadia")).length = 2 ∧
    (whereRanking 5 (rankedForSpecies gridDistance "seal" twinAcadia)).map
        (fun r => (r.name, r.park_name, r.ranking)) =
      [("Twin", "Acadia", 1), ("Twin", "Acadia", 2)] ∧
    (recommendedAirbnbForSpecies gridDistance "seal" 5 twinAcadia).map
        (fun r => (r.name, r.park_name, r.ranking)) = [("Twin", "Acadia", 1)] ∧
    ((recommendedAirbnbForSpecies gridDistance "seal" 5 twinAcadia).filter
        fun r => decide (r.park_name = "Acadia")).length ≠
      min (5 : Int).toNat
        ((candidatesForSpecies gridDistance "seal" twinAcadia).filter
          fun r => decide (r.park_name = "Acadia")).length := by
  refine ⟨?_, ?_, ?_, ?_⟩ <;> decide!

/-- C2, amended: for a number `num >= 1` and a park whose `n` candidate rows in
`recommendedAirbnbForSpecies` are pairwise distinct in the returned columns,
the filter `ranking < num + 1` keeps `min(num, n)` rows of the park with the
ranks `1, 2, ..., min(num, n)`; the statement returns exactly `min(num, n)`
rows for the park, their ranks are `1, ..., min(num, n)` with no gap and no
repeat, and all `n` candidates are returned when `num` exceeds `n`; the same
holds in whatever order the candidates are supplied. -/
theorem recommendedAirbnbForSpecies_dense_prefix (dist : ℚ → ℚ → ℚ → ℚ → ℚ) (species : String)
    (num : Int) (hnum : 1 ≤ num) (db : Database) (park : String)
    (hdistinct : ((candidatesForSpecies dist species db).filter
      fun r => decide (r.park_name = park)).Nodup) :
    ((whereRanking num (rankedForSpecies dist species db)).filter
        fun r => decide (r.park_name = park)).map (fun r => r.ranking) =
      List.range' 1 (min num.toNat
        ((candidatesForSpecies dist species db).filter
          fun r => decide (r.park_name = park)).length) ∧
    ((recommendedAirbnbForSpecies dist species num db).filter
        fun r => decide (r.park_name = park)).length =
      min num.toNat
        ((candidatesForSpecies dist species db).filter
          fun r => decide (r.park_name = park)).length ∧
    (((recommendedAirbnbForSpecies dist species num db).filter
        fun r => decide (r.park_name = park)).map fun r => r.ranking).Perm
      (List.range' 1 (min num.toNat
        ((candidatesForSpecies dist species db).filter
          fun r => decide (r.park_name = park)).length)) ∧
    ((((candidatesForSpecies dist species db).filter
        fun r => decide (r.park_name = park)).length : Int) < num →
      (((recommendedAirbnbForSpecies dist species num db).filter
        fun r => decide (r.park_name = park)).map fun r => r.toParkAirbnb).Perm
        ((candidatesForSpecies dist species db).filter
          fun r => decide (r.park_name = park))) ∧
    (∀ supplied : List ParkAirbnb, supplied.Perm (candidatesForSpecies dist species db) →
      ((selectRanked num (ranked_park_airbinb supplied)).filter
          fun r => decide (r.park_name = park)).length =
        min num.toNat
          ((candidatesForSpecies dist species db).filter
            fun r => decide (r.park_name = park)).length ∧
      (((selectRanked num (ranked_park_airbinb supplied)).filter
          fun r => decide (r.park_name = park)).map fun r => r.ranking).Perm
        (List.range' 1 (min num.toNat
          ((candidatesForSpecies dist species db).filter
            fun r => decide (r.park_name = park)).length))) := by
  have hgen : ∀ supplied : List ParkAirbnb,
      supplied.Perm (candidatesForSpecies dist species db) →
      ((selectRanked num (ranked_park_airbinb supplied)).filter
          fun r => decide (r.park_name = park)).Perm
        ((whereRanking num (ranked_park_airbinb supplied)).filter
          fun r => decide (r.park_name = park)) := by
    intro supplied hperm
    exact selectRanked_park_perm num (by omega) supplied park
      (((hperm.filter _).nodup_iff).2 hdistinct)
  have hself := hgen _ (List.Perm.refl (candidatesForSpecies dist species db))
  have hfilter := whereRanking_keeps_dense_prefix num hnum (candidatesForSpecies dist species db)
    (candidatesForSpecies dist species db) (List.Perm.refl _) park
  refine ⟨hfilter.2.1, ?_, ?_, ?_, ?_⟩
  · exact hself.length_eq.trans hfilter.1
  · have := hself.map fun r : RankedParkAirbnb => r.ranking
    rw [hfilter.2.1] at this
    exact this
  · intro hn
    exact (hself.map fun r : RankedParkAirbnb => r.toParkAirbnb).trans (hfilter.2.2 hn)
  · intro supplied hperm
    have hf := whereRanking_keeps_dense_prefix num hnum (candidatesForSpecies dist species db)
      supplied hperm park
    refine ⟨(hgen supplied hperm).length_eq.trans hf.1, ?_⟩
    have := (hgen supplied hperm).map fun r : RankedParkAirbnb => r.ranking
    rw [hf.2.1] at this
    exact this

/-- C2, amended, on the example snapshot: Acadia has three candidates for the
seal, pairwise distinct, and with `num = 2` two rows are returned, ranked 1
and 2. -/
theorem recommendedAirbnbForSpecies_dense_prefix_witness :
    (1 : Int) ≤ 2 ∧
    ((candidatesForSpecies gridDistance "seal" snapshot).filter
      fun r => decide (r.park_name = "Acadia")).Nodup ∧
    (((whereRanking 2 (rankedForSpecies gridDistance "seal" snapshot)).filter
        fun r => decide (r.park_name = "Acadia")).map (fun r => r.ranking) =
      List.range' 1 (min (2 : Int).toNat
        ((candidatesForSpecies gridDistance "seal" snapshot).filter
          fun r => decide (r.park_name = "Acadia")).length) ∧
    ((recommendedAirbnbForSpecies gridDistance "seal" 2 snapshot).filter
        fun r => decide (r.park_name = "Acadia")).length =
      min (2 : Int).toNat
        ((candidatesForSpecies gridDistance "seal" snapshot).filter
          fun r => decide (r.park_name = "Acadia")).length ∧
    (((recommendedAirbnbForSpecies gridDistance "seal" 2 snapshot).filter
        fun r => decide (r.park_name = "Acadia")).map fun r => r.ranking).Perm
      (List.range' 1 (min (2 : Int).toNat
        ((candidatesForSpecies gridDistance "seal" snapshot).filter
          fun r => decide (r.park_name = "Acadia")).length)) ∧
    ((((candidatesForSpecies gridDistance "seal" snapshot).filter
        fun r => decide (r.park_name = "Acadia")).length : Int) < 2 →
      (((recommendedAirbnbForSpecies gridDistance "seal" 2 snapshot).filter
        fun r => decide (r.park_name = "Acadia")).map fun r => r.toParkAirbnb).Perm
        ((candidatesForSpecies gridDistance "seal" snapshot).filter
          fun r => decide (r.park_name = "Acadia"))) ∧
    (∀ supplied : List ParkAirbnb,
      supplied.Perm (candidatesForSpecies gridDistance "seal" snapshot) →
      ((selectRanked 2 (ranked_park_airbinb supplied)).filter
          fun r => decide (r.park_name = "Acadia")).length =
        min (2 : Int).toNat
          ((candidatesForSpecies gridDistance "seal" snapshot).filter
            fun r => decide (r.park_name = "Acadia")).length ∧
      (((selectRanked 2 (ranked_park_airbinb supplied)).filter
          fun r => decide (r.park_name = "Acadia")).map fun r => r.ranking).Perm
        (List.range' 1 (min (2 : Int).toNat
          ((candidatesForSpecies gridDistance "seal" snapshot).filter
            fun r => decide (r.park_name = "Acadia")).length)))) :=
  ⟨by decide, by decide!,
    recommendedAirbnbForSpecies_dense_prefix gridDistance "seal" 2 (by decide) snapshot "Acadia"
      (by decide!)⟩

end Eval

end ParkSafari
